import Mathlib

/-!
# Verification of the vibescan scan-orchestration engine

Shallow embedding of the scan route of the `vibescan` repository
(`src/unnamed/part_002`, the current revision of the scan API route, together
with the display-time redaction in `src/unnamed/part_000`).  Network effects
are modelled by passing each probe the response data it would have received:
a `fetch` that threw (timeout / network error) is `none`, an HTTP response is
`some` of a `Resp` record.  JavaScript built-ins that are external to the
repository (`JSON.parse`, `Buffer.from(·,'base64')`, the regex engine where
noted) are modelled as explicit oracle parameters; everything else is
translated directly from the TypeScript source.
-/

namespace VibeScan

/-!
The JS string methods the source uses are given structural `List Char`
implementations (a JS string is a sequence of code units), so that every
definition evaluates by kernel reduction.
-/

/-- Does `pat` occur as a contiguous run in `l`? -/
def subOccurs (pat : List Char) : List Char → Bool
  | [] => pat.isEmpty
  | c :: cs => pat.isPrefixOf (c :: cs) || subOccurs pat cs

/-- JS `String.prototype.includes`. -/
def containsSub (s pat : String) : Bool :=
  subOccurs pat.data s.data

/-- One splitting step of JS `String.prototype.split` for a non-empty
separator; the fuel equals the input length and never runs out. -/
def jsSplitLoop (sep : List Char) : Nat → List Char → List Char → List (List Char)
  | _, acc, [] => [acc.reverse]
  | 0, acc, rest => [acc.reverse ++ rest]
  | fuel + 1, acc, c :: cs =>
    if sep.isPrefixOf (c :: cs) then
      acc.reverse :: jsSplitLoop sep fuel [] ((c :: cs).drop sep.length)
    else jsSplitLoop sep fuel (c :: acc) cs

/-- JS `s.split(sep)` / Lean `String.splitOn` for the non-empty separators
the source uses. -/
def jsSplit (s sep : String) : List String :=
  if sep.isEmpty then [s]
  else (jsSplitLoop sep.data s.data.length [] s.data).map String.mk

def jsToLower (s : String) : String := String.mk (s.data.map Char.toLower)

def jsTrim (s : String) : String :=
  String.mk (((s.data.dropWhile Char.isWhitespace).reverse.dropWhile
    Char.isWhitespace).reverse)

def jsTake (s : String) (n : Nat) : String := String.mk (s.data.take n)

def jsDrop (s : String) (n : Nat) : String := String.mk (s.data.drop n)

/-- JS `Array.prototype.join`. -/
def joinSep (sep : String) : List String → String
  | [] => ""
  | [x] => x
  | x :: xs => x ++ sep ++ joinSep sep xs

/-- Decimal value of a digit run (`parseInt` on a `\\d+` match). -/
def digitsToNat (ds : List Char) : Nat :=
  ds.foldl (fun n c => n * 10 + (c.toNat - '0'.toNat)) 0

/-- JS `String.prototype.startsWith`, on the character sequence. -/
def jsStartsWith (s pre : String) : Bool :=
  pre.data.isPrefixOf s.data

/-- JS `String.prototype.endsWith`, on the character sequence. -/
def jsEndsWith (s post : String) : Bool :=
  post.data.isSuffixOf s.data

/-- Truthiness of a JS `string | null | undefined` value:
`none` models `null`/`undefined`, and the empty string is falsy. -/
def truthyOpt : Option String → Bool
  | none => false
  | some s => !s.isEmpty

/-- JS `url.replace(/\/$/, '')`: drop a single trailing slash, if present. -/
def stripTrailingSlash (u : String) : String :=
  if jsEndsWith u "/" then String.mk u.data.dropLast else u

/-- `normalizeUrl` (src/unnamed/part_002 lines 53-58): default the scheme to
`https` when the input starts with neither `http://` nor `https://`, then
strip one trailing slash. -/
def normalizeUrl (url : String) : String :=
  let url := if !jsStartsWith url "http://" && !jsStartsWith url "https://" then
    "https://" ++ url
  else url
  stripTrailingSlash url

/-- An HTTP response as the probes observe it: status code, response headers
(name/value pairs, names stored lowercase as the code only reads fixed
lowercase names), body text. `fetchWithTimeout` (lines 68-77) either returns
such a record or throws; a thrown fetch is modelled as `none` upstream. -/
structure Resp where
  status : Nat
  headers : List (String × String)
  body : String
  deriving DecidableEq

/-- JS `Response.ok`: status in the range 200-299. -/
def Resp.ok (r : Resp) : Bool :=
  200 ≤ r.status && r.status < 300

/-- JS `res.headers.get(name)` (names compared case-insensitively). -/
def Resp.getHeader (r : Resp) (name : String) : Option String :=
  (r.headers.find? (fun kv => jsToLower kv.1 == jsToLower name)).map (·.2)

/-- `res.headers.get('content-type') || ''`. -/
def Resp.contentType (r : Resp) : String :=
  (r.getHeader "content-type").getD ""

/-! ## A small model of the WHATWG `URL` parser

The source calls `new URL(u).origin` / `.hostname` on URLs it either built
itself from an origin and a path or received from the scanned site.  We model
the parser for the `scheme://host[:port][/...]` shapes the scanner produces:
the scheme is everything before the first `://`, the authority runs to the
first `/`, `?` or `#`, and the hostname is the authority up to a port
separator, lowercased.  Strings without a `://` fail to parse (`none`),
matching `new URL` throwing on scheme-less input. -/

/-- Split a URL into scheme and remainder at the first `"://"`. -/
def splitScheme (u : String) : Option (String × String) :=
  match jsSplit u "://" with
  | [] => none
  | [_] => none
  | s :: rest => some (s, joinSep "://" rest)

/-- The authority component: the remainder up to the first `/`, `?` or `#`. -/
def authorityOf (rest : String) : String :=
  String.mk (rest.toList.takeWhile (fun c => c ≠ '/' && c ≠ '?' && c ≠ '#'))

/-- Model of `new URL(u).hostname` (lowercased host, port stripped). -/
def hostnameOf (u : String) : Option String :=
  match splitScheme u with
  | none => none
  | some (_, rest) =>
    let auth := authorityOf rest
    match jsSplit auth ":" with
    | [] => none
    | h :: _ => if h.isEmpty then none else some (jsToLower h)

/-- Model of `new URL(u).origin` (scheme plus authority as written). -/
def originOf (u : String) : Option String :=
  match splitScheme u with
  | none => none
  | some (sch, rest) =>
    let auth := authorityOf rest
    if auth.isEmpty then none else some (sch ++ "://" ++ jsToLower auth)

/-- `getOrigin` (lines 60-66): `new URL(url).origin`, falling back to the
input itself when parsing throws. -/
def getOrigin (url : String) : String :=
  (originOf url).getD url

/-! ## Regex-scanner framework

The discovery code runs JS global regexes over fetched text.  Each pattern is
embedded as a step function that, at a given position, either recognises a
match (returning the captured string and the rest of the input after the
match) or fails, in which case the scan advances one character — exactly the
left-to-right, non-overlapping behaviour of `String.prototype.match` with a
`/g` regex.  The scan is driven by a fuel counter equal to the input length;
since every step consumes at least one character, the fuel never runs out. -/

/-- Drive a match-step over the input, left to right, non-overlapping. -/
def scanLoop (step : List Char → Option (String × List Char)) :
    Nat → List Char → List String
  | 0, _ => []
  | _, [] => []
  | fuel + 1, c :: cs =>
    match step (c :: cs) with
    | some (cap, rest) => cap :: scanLoop step fuel rest
    | none => scanLoop step fuel cs

def scanAll (step : List Char → Option (String × List Char)) (s : String) :
    List String :=
  scanLoop step s.length s.toList

/-- Strip a literal prefix from a character list, or fail. -/
def dropLit : List Char → List Char → Option (List Char)
  | [], rest => some rest
  | _, [] => none
  | p :: ps, c :: cs => if p = c then dropLit ps cs else none

def isQuote (c : Char) : Bool := c = '"' || c = '\''

/-- Match step for `/<loc>([^<]+)<\/loc>/g` (sitemap extraction, line 88);
the subsequent `m.replace(/<\/?loc>/g, '')` leaves exactly the capture, which
is what this step returns. -/
def locStep (l : List Char) : Option (String × List Char) := do
  let r ← dropLit "<loc>".toList l
  let inner := r.takeWhile (· ≠ '<')
  if inner.isEmpty then none else
  let r2 ← dropLit "</loc>".toList (r.drop inner.length)
  some (String.mk inner, r2)

def extractLocs (s : String) : List String := scanAll locStep s

/-- Match step for `/href=["']([^"']+)["']/g` (line 122); the two `replace`
calls on the match leave exactly the capture between the quotes. -/
def hrefStep (l : List Char) : Option (String × List Char) := do
  let r ← dropLit "href=".toList l
  match r with
  | q :: r1 =>
    if !isQuote q then none else
    let inner := r1.takeWhile (fun c => !isQuote c)
    if inner.isEmpty then none else
    match r1.drop inner.length with
    | q2 :: r2 => if isQuote q2 then some (String.mk inner, r2) else none
    | [] => none
  | [] => none

def extractHrefs (s : String) : List String := scanAll hrefStep s

/-- Match step for `/src=["']([^"']+\.js[^"']*)["']/g` (line 133): a quoted
run without quotes whose text contains `.js` at some position past the first
character. -/
def srcJsStep (l : List Char) : Option (String × List Char) := do
  let r ← dropLit "src=".toList l
  match r with
  | q :: r1 =>
    if !isQuote q then none else
    let inner := r1.takeWhile (fun c => !isQuote c)
    if inner.isEmpty then none else
    if !containsSub (String.mk (inner.drop 1)) ".js" then none else
    match r1.drop inner.length with
    | q2 :: r2 => if isQuote q2 then some (String.mk inner, r2) else none
    | [] => none
  | [] => none

def extractScriptSrcs (s : String) : List String := scanAll srcJsStep s

/-! Step for the route pattern
`/"(\/[a-z][a-z0-9]*(?:\/[a-z][a-z0-9-]*){0,4})"/g` (line 145): an opening
quote, a first segment `/[a-z][a-z0-9]*`, up to four further segments
`/[a-z][a-z0-9-]*`, then a closing quote.  The segment characters exclude
`/` and `"`; so within a candidate the only backtracking the regex engine can
perform is on the *number* of trailing segments, trying the greedy maximum
first.  `routeCheckpoints` collects the greedy segment checkpoints and
`routeStep` picks the longest one followed by a closing quote. -/

def isLowerAlpha (c : Char) : Bool := 'a' ≤ c && c ≤ 'z'
def isSeg1Char (c : Char) : Bool := isLowerAlpha c || ('0' ≤ c && c ≤ '9')
def isSegChar (c : Char) : Bool := isSeg1Char c || c = '-'

/-- Parse one `\/[a-z][a-z0-9-]*` segment. -/
def parseSeg : List Char → Option (List Char × List Char)
  | '/' :: c :: r =>
    if isLowerAlpha c then
      let tl := r.takeWhile isSegChar
      some ('/' :: c :: tl, r.drop tl.length)
    else none
  | _ => none

/-- Greedy checkpoints after 0,1,…,`n` further segments. -/
def routeCheckpoints : Nat → List Char → List Char → List (List Char × List Char)
  | 0, acc, r => [(acc, r)]
  | n + 1, acc, r =>
    match parseSeg r with
    | some (seg, r') => (acc, r) :: routeCheckpoints n (acc ++ seg) r'
    | none => [(acc, r)]

def routeStep (l : List Char) : Option (String × List Char) :=
  match l with
  | '"' :: '/' :: c :: r =>
    if !isLowerAlpha c then none else
    let tl := r.takeWhile isSeg1Char
    let cps := routeCheckpoints 4 ('/' :: c :: tl) (r.drop tl.length)
    -- greedy: prefer the checkpoint with the most segments
    (cps.reverse.filterMap (fun (acc, rest) =>
      match rest with
      | '"' :: rest' => some (String.mk acc, rest')
      | _ => none)).head?
  | _ => none

def extractRoutePaths (s : String) : List String := scanAll routeStep s

/-! ## URL Discoverer (`discoverUrls`, src/unnamed/part_002 lines 79-178) -/

/-- Insertion into the JS `Set<string>` model: keep first occurrence. -/
def addUrl (urls : List String) (u : String) : List String :=
  if urls.contains u then urls else urls ++ [u]

def addUrls (urls : List String) (us : List String) : List String :=
  us.foldl addUrl urls

/-- Responses available to one `discoverUrls` run: each entry is `none` when
the bounded fetch threw (timeout / network error). -/
structure DiscoverEnv where
  sitemap : Option Resp
  robots : Option Resp
  homepage : Option Resp
  bundles : String → Option Resp

/-- Step 1 (lines 84-94): `<loc>` values of `/sitemap.xml`, first 50, trimmed. -/
def sitemapUrls : Option Resp → List String
  | some res =>
    if res.ok then ((extractLocs res.body).take 50).map jsTrim else []
  | none => []

/-- One line of `/robots.txt` against `/^(?:Disallow|Allow):\s*(.+)/i`
(lines 102-109): the directive's argument, trimmed, provided it is not `/`,
not empty and contains no `*`. -/
def robotsLinePath (line : String) : Option String :=
  let lower := jsToLower line
  let arg? : Option String :=
    if jsStartsWith lower "disallow:" then some (jsDrop line "disallow:".length)
    else if jsStartsWith lower "allow:" then some (jsDrop line "allow:".length)
    else none
  match arg? with
  | none => none
  | some rest =>
    -- `\s*` then `(.+)`: the capture needs at least one character
    let rest := String.mk (rest.data.dropWhile Char.isWhitespace)
    if rest.isEmpty then none else
    let path := jsTrim rest
    if path != "/" && !path.isEmpty && !containsSub path "*" then some path
    else none

/-- Step 2 (lines 97-112). -/
def robotsUrls (origin : String) : Option Resp → List String
  | some res =>
    if res.ok then
      (jsSplit res.body "\n").filterMap (fun l => (robotsLinePath l).map (origin ++ ·))
    else []
  | none => []

/-- Step 3a (lines 122-130): anchor hrefs of the homepage. -/
def homepageLinkUrls (origin : String) (body : String) : List String :=
  (extractHrefs body).filterMap (fun href =>
    if jsStartsWith href "/" && !jsStartsWith href "//" &&
        !jsEndsWith href ".css" && !jsEndsWith href ".ico" then
      some (origin ++ href)
    else if jsStartsWith href origin then some href
    else none)

/-- Step 3b (lines 133-139): same-origin JS bundle URLs for route mining. -/
def homepageBundleUrls (origin : String) (body : String) : List String :=
  (extractScriptSrcs body).filterMap (fun src =>
    if containsSub src "cdn." || containsSub src "googleapis" ||
        containsSub src "analytics" then none
    else if jsStartsWith src "/" then some (origin ++ src)
    else if jsStartsWith src "http" then some src
    else some (origin ++ "/" ++ src))

def skippedPrefixes : List String :=
  ["/api/", "/assets/", "/static/", "/_next/", "/fonts/", "/images/", "/_vercel"]

/-- Step 4 filter (lines 158-165): route-shaped literals from a bundle. -/
def bundleRoutePaths (js : String) : List String :=
  (extractRoutePaths js).filterMap (fun path =>
    if path.length < 2 then none
    else if skippedPrefixes.any (jsStartsWith path ·) then none
    else if containsSub path "." && !jsEndsWith path "/" then none
    else some path)

/-- Step 4 (lines 148-167): fetch up to 4 bundles, skip failures, non-2xx and
bodies under 5000 characters, and mine route paths. -/
def bundlesUrls (origin : String) (env : DiscoverEnv) (bundleUrls : List String) :
    List String :=
  (bundleUrls.take 4).foldl (fun acc bundleUrl =>
    match env.bundles bundleUrl with
    | none => acc
    | some res =>
      if !res.ok then acc
      else if res.body.length < 5000 then acc
      else acc ++ (bundleRoutePaths res.body).map (origin ++ ·)) []

/-- The homepage text available to steps 3 and 4 (lines 116-141): present
only when the fetch succeeded with a 2xx response. -/
def homepageBodyOf : Option Resp → Option String
  | some res => if res.ok then some res.body else none
  | none => none

/-- The URL set accumulated by the four collection steps of `discoverUrls`
(lines 79-167), in insertion order. -/
def collectedUrls (env : DiscoverEnv) (origin : String) : List String :=
  let urls := addUrls [] (sitemapUrls env.sitemap)
  let urls := addUrls urls (robotsUrls origin env.robots)
  let homepageBody : Option String := homepageBodyOf env.homepage
  let urls := match homepageBody with
    | some b => addUrls urls (homepageLinkUrls origin b)
    | none => urls
  let jsBundleUrls := match homepageBody with
    | some b => homepageBundleUrls origin b
    | none => []
  addUrls urls (bundlesUrls origin env jsBundleUrls)

/-- The output stage of `discoverUrls` (lines 170-175): filter to the
target's hostname, sort, cap at 60. -/
def finalizeUrls (origin : String) (urls : List String) : List String :=
  (List.insertionSort (fun a b => a ≤ b) (urls.filter (fun u =>
      match hostnameOf u, hostnameOf origin with
      | some a, some b => a == b
      | _, _ => false))).take 60

/-- `discoverUrls` (lines 79-178). -/
def discoverUrls (env : DiscoverEnv) (baseUrl : String) : List String :=
  let origin := getOrigin baseUrl
  finalizeUrls origin (collectedUrls env origin)

/-! ## Sensitive Path Prober (`checkSensitivePaths`, lines 180-254)

`JSON.parse` is a JS built-in; the validators only inspect the parsed value
through a fixed set of observations, so it is modelled as an oracle
`jp : String → Option JsonView` (`none` = `JSON.parse` threw). -/

def SENSITIVE_PATHS : List String :=
  ["/.env", "/.env.local", "/.env.production", "/.git/config", "/package.json",
   "/config.json", "/database.json", "/api/users", "/api/admin", "/api/config",
   "/admin", "/internal", "/debug", "/wp-admin", "/phpinfo.php"]

/-- The observations the path validators and previews make of a parsed JSON
value: `isArray` is `Array.isArray(j)`, `isObject` is `typeof j === 'object'`
for a non-null value, `hasName`/`hasDependencies` are the truthiness of
`j.name`/`j.dependencies`, `hasUsersDataOrEmail` the truthiness of
`j.users || j.data || j.email`, and `nameText`/`versionText`/`depCount`
supply `String(j.name)`, `String(j.version)` and
`Object.keys(j.dependencies || {}).length` for the preview. -/
structure JsonView where
  isArray : Bool := false
  isObject : Bool := false
  hasName : Bool := false
  hasDependencies : Bool := false
  hasUsersDataOrEmail : Bool := false
  nameText : String := "undefined"
  versionText : String := "undefined"
  depCount : Nat := 0
  deriving DecidableEq

/-- The `/^[A-Z_]+=.+/m` test of the `.env*` validators, applied to one line:
a non-empty run of `[A-Z_]` characters, an `=`, and a non-empty remainder. -/
def isEnvCapChar (c : Char) : Bool := ('A' ≤ c && c ≤ 'Z') || c = '_'

def envLineMatch (line : String) : Bool :=
  let caps := line.data.takeWhile isEnvCapChar
  match line.data.drop caps.length with
  | '=' :: rest => !caps.isEmpty && !rest.isEmpty
  | _ => false

def envBodyMatch (body : String) : Bool :=
  (jsSplit body "\n").any envLineMatch

/-- `PATH_VALIDATORS` (lines 181-194): the path-specific content validators.
`none` means the catalog has no validator for the path. -/
def PATH_VALIDATORS (jp : String → Option JsonView) (path : String) :
    Option (String → String → Bool) :=
  if path = "/.git/config" then some (fun b _ =>
    containsSub b "[core]" || containsSub b "[remote" || containsSub b "[branch")
  else if path = "/.env" || path = "/.env.local" || path = "/.env.production" then
    some (fun b ct => !containsSub ct "text/html" && envBodyMatch b)
  else if path = "/package.json" then some (fun b _ =>
    match jp b with
    | some j => j.hasName && j.hasDependencies
    | none => false)
  else if path = "/database.json" || path = "/config.json" then some (fun b _ =>
    match jp b with
    | some _ => b.length > 10
    | none => false)
  else if path = "/api/users" then some (fun b _ =>
    match jp b with
    | some j => j.isArray || (j.isObject && j.hasUsersDataOrEmail)
    | none => false)
  else if path = "/api/admin" || path = "/api/config" then some (fun _ ct =>
    !containsSub ct "text/html")
  else if path = "/phpinfo.php" then some (fun b _ =>
    containsSub b "PHP Version" || containsSub b "phpinfo")
  else if path = "/wp-admin" then some (fun b _ =>
    containsSub b "wp-login" || containsSub b "WordPress" || containsSub b "wp-admin")
  else none

/-- `isSpaFallback` (lines 197-207): the single-page-app fallback heuristic. -/
def isSpaFallback (body contentType : String) : Bool :=
  if !containsSub contentType "text/html" then false
  else
    containsSub body "id=\x22root\x22" ||
    containsSub body "id=\x22app\x22" ||
    containsSub body "__NEXT_DATA__" ||
    containsSub body "_next/static" ||
    (containsSub body "<script" && containsSub body "bundle" && body.length < 10000)

/-- One exposure record of `checkSensitivePaths`. -/
structure PathFinding where
  path : String
  status : Nat
  preview : Option String
  deriving DecidableEq

/-- The `/^([A-Z_]+)=/gm` matches used for the `.env` preview (line 236):
note the full match includes the `=`. -/
def envKeyMatches (body : String) : List String :=
  (jsSplit body "\n").filterMap (fun line =>
    let caps := line.data.takeWhile isEnvCapChar
    match line.data.drop caps.length with
    | '=' :: _ => if caps.isEmpty then none else some (String.mk caps ++ "=")
    | _ => none)

/-- The preview snippet construction (lines 232-246). -/
def pathPreview (jp : String → Option JsonView) (path body : String) :
    Option String :=
  if containsSub path ".env" then
    let keyNames := joinSep ", " ((envKeyMatches body).take 5)
    if keyNames.isEmpty then none else some ("Contains: " ++ keyNames ++ "...")
  else if path = "/package.json" then
    match jp body with
    | some j => some (j.nameText ++ "@" ++ j.versionText ++ " — " ++
        toString j.depCount ++ " dependencies")
    | none => none
  else if containsSub path ".git" then
    let firstLine := ((jsSplit body "\n").find? (fun l => !(jsTrim l).isEmpty)).getD ""
    some (jsTrim firstLine)
  else none

/-- The request issued for one sensitive path (line 216): explicitly `GET`. -/
structure Request where
  method : String
  url : String

def sensitivePathRequest (origin path : String) : Request :=
  { method := "GET", url := origin ++ path }

/-- Processing of one sensitive path (lines 213-250): only a `200` response
survives, the SPA-fallback heuristic and the path validator (or, without one,
the non-HTML check) must accept, and then a finding with a safe preview is
recorded.  `none` fetch = the bounded fetch threw. -/
def probeSensitivePath (jp : String → Option JsonView) (path : String) :
    Option Resp → Option PathFinding
  | none => none
  | some res =>
    if res.status ≠ 200 then none
    else
      let contentType := res.contentType
      let body := res.body
      if isSpaFallback body contentType then none
      else
        match PATH_VALIDATORS jp path with
        | some v => if !v body contentType then none
            else some ⟨path, res.status, pathPreview jp path body⟩
        | none =>
          if containsSub contentType "text/html" then none
          else some ⟨path, res.status, pathPreview jp path body⟩

/-- `checkSensitivePaths` (lines 209-254); the concurrent settlement order of
the per-path pushes is abstracted to catalog order. -/
def checkSensitivePaths (jp : String → Option JsonView)
    (fetchPath : String → Option Resp) : List PathFinding :=
  SENSITIVE_PATHS.filterMap (fun p => probeSensitivePath jp p (fetchPath p))

/-! ## Header Inspector (`checkSecurityHeaders`, lines 256-274) -/

def SECURITY_HEADER_KEYS : List String :=
  ["strict-transport-security", "content-security-policy", "x-frame-options",
   "x-content-type-options", "referrer-policy", "permissions-policy"]

/-- `checkSecurityHeaders`: one homepage fetch (no `ok` check — a thrown
fetch leaves every entry `null`), reading the six fixed headers. -/
def checkSecurityHeaders : Option Resp → List (String × Option String)
  | some res => SECURITY_HEADER_KEYS.map (fun k => (k, res.getHeader k))
  | none => SECURITY_HEADER_KEYS.map (fun k => (k, none))

/-! ## CORS Prober (`checkCors`, lines 407-425) -/

structure CorsResult where
  open_ : Bool
  header : Option String
  deriving DecidableEq

/-- `checkCors`: OPTIONS against `/api/` then `/api/health` with a foreign
`Origin`; the first `access-control-allow-origin: *` observation wins. -/
def checkCors (fetchOptions : String → Option Resp) (baseUrl : String) :
    CorsResult :=
  let origin := getOrigin baseUrl
  let endpoints := [origin ++ "/api/", origin ++ "/api/health"]
  match endpoints.findSome? (fun endpoint =>
      match fetchOptions endpoint with
      | none => none
      | some res =>
        if res.getHeader "access-control-allow-origin" = some "*" then
          some res
        else none) with
  | some _ => { open_ := true, header := some "*" }
  | none => { open_ := false, header := none }

/-! ## Secret Scanner — Supabase JWT classification
(`detectApiKeys`, src/unnamed/part_002 lines 284-405)

The regex engine and `Buffer.from(·,'base64')`/`JSON.parse` are JS built-ins.
The list of `Supabase JWT` pattern matches found in a bundle is therefore
taken as input, and payload decoding is an oracle
`dec : String → Option Payload`: `dec` receives `parts[1]` of the token (the
payload segment only — the signature is never inspected, matching the
unverified decode in the source) and returns `none` exactly when `JSON.parse`
of the base64-decoded text throws. -/

/-- The two claims the code reads off a decoded JWT payload; `none` models an
absent (`undefined`) field. -/
structure Payload where
  role : Option String := none
  iss : Option String := none
  deriving DecidableEq

/-- One entry of the `detectApiKeys` result. -/
structure ApiKeyFinding where
  type : String
  preview : String
  severity : String          -- 'critical' | 'warning'
  supabaseUrl : Option String := none
  supabaseKey : Option String := none
  deriving DecidableEq

/-- The distinct service-role finding pushed at lines 345-351. -/
def serviceRoleFinding (detectedSupabaseUrl fullKey : String) : ApiKeyFinding :=
  { type := "Supabase Service Role Key"
    preview := jsTake fullKey 8 ++ "..."
    severity := "critical"
    supabaseUrl := some detectedSupabaseUrl
    supabaseKey := some fullKey }

/-- One iteration of the `for (const fullKey of fullMatches)` loop
(lines 338-367).  State: findings pushed so far, the mutable `finding` for the
`Supabase JWT` pattern, and `detectedSupabaseKey`. -/
def jwtStep (dec : String → Option Payload) (detectedSupabaseUrl : String)
    (st : List ApiKeyFinding × ApiKeyFinding × Option String) (fullKey : String) :
    List ApiKeyFinding × ApiKeyFinding × Option String :=
  let (acc, finding, detected) := st
  let parts := jsSplit fullKey "."
  if parts.length ≥ 2 then
    match dec (parts.getD 1 "") with
    | some payload =>
      if payload.role = some "service_role" then
        -- service-role key: a separate, maximally critical finding
        (acc ++ [serviceRoleFinding detectedSupabaseUrl fullKey], finding, detected)
      else if payload.role = some "anon" ∨ payload.iss = some "supabase" then
        -- anon key: recorded on the JWT finding as the data-exposure credential
        (acc, { finding with supabaseUrl := some detectedSupabaseUrl,
                             supabaseKey := some fullKey }, some fullKey)
      else (acc, finding, detected)
    | none =>
      -- decode threw: fall back to this match if no key was recorded yet
      if detected.isNone then
        (acc, { finding with supabaseUrl := some detectedSupabaseUrl,
                             supabaseKey := some fullKey }, some fullKey)
      else st
  else st

/-- Processing of the `Supabase JWT` pattern when a Supabase URL was detected
in the same bundle (lines 327-371): the base finding is built from the first
match, the loop classifies every match, and the base finding is pushed after
the loop.  Returns the findings contributed by this pattern and
`detectedSupabaseKey`. -/
def processSupabaseJwtPattern (dec : String → Option Payload)
    (detectedSupabaseUrl : String) (fullMatches : List String) :
    List ApiKeyFinding × Option String :=
  match fullMatches with
  | [] => ([], none)
  | m0 :: _ =>
    let finding0 : ApiKeyFinding :=
      { type := "Supabase JWT", preview := jsTake m0 8 ++ "...",
        severity := "critical" }
    let (svc, finding, detected) :=
      fullMatches.foldl (jwtStep dec detectedSupabaseUrl) ([], finding0, none)
    (svc ++ [finding], detected)

/-! ## Data-Exposure Prober
(`checkSupabaseDataExposure`, src/unnamed/part_002 lines 429-535) -/

/-- A sampled row: the JSON object's keys in order (cell values are only ever
inspected by the display-time redaction, which is modelled separately). -/
abbrev Row := List String

/-- Outcome of the schema-catalog (OpenAPI) fetch.  `ok defs` carries the
parsed `spec.definitions`: the table names in key order, each with
`Object.keys(def.properties)` when a `properties` object is present.
`ok none` is a 2xx response whose JSON has no `definitions`. -/
inductive SchemaFetch
  | fail                                        -- fetch or `res.json()` threw
  | notOk                                       -- `!specRes.ok`
  | ok (defs : Option (List (String × Option (List String))))
  deriving DecidableEq

/-- Outcome of one table's sample query.  `ok rows cr`: 2xx response;
`rows = some l` when the body parsed as a JSON array, `none` when it parsed
as a non-array value; `cr` is the `content-range` header. -/
inductive TableFetch
  | fail                                        -- fetch or `res.json()` threw
  | notOk                                       -- `!res.ok`
  | ok (rows : Option (List Row)) (contentRange : Option String)
  deriving DecidableEq

structure ExposedTable where
  name : String
  columns : List String
  sampleRows : List Row
  totalRows : Option Nat
  rls : Bool
  deriving DecidableEq

structure DataLeaks where
  supabaseUrl : String
  keyPreview : String
  tables : List ExposedTable
  blockedTables : List String
  tablesFound : Nat
  openTables : Nat
  deriving DecidableEq

/-- The `/\/(\d+)$/` match on the `content-range` header (lines 494-497),
guarded by the truthiness of the header value. -/
def parseContentRange : Option String → Option Nat
  | none => none
  | some s =>
    if s.isEmpty then none
    else
      let ds := s.toList.reverse.takeWhile Char.isDigit
      if ds.isEmpty then none
      else match s.toList.reverse.drop ds.length with
        | '/' :: _ => some (digitsToNat ds.reverse)
        | _ => none

/-- Classification of one cataloged table by its own sample query
(lines 471-521): a thrown fetch/parse or a non-2xx response marks the table
blocked; a 2xx JSON array with rows is an open table (columns from the first
row); a 2xx empty array is accessible-but-empty (columns from the schema
catalog, count defaulted to 0); a 2xx non-array body falls through both
`Array.isArray` branches and records nothing. -/
inductive TableClass
  | blocked
  | accessible (t : ExposedTable)
  | dropped
  deriving DecidableEq

def classifyTable (columnSchemas : String → List String) (name : String) :
    TableFetch → TableClass
  | .fail => .blocked
  | .notOk => .blocked
  | .ok rows? cr =>
    let totalRows := parseContentRange cr
    match rows? with
    | some (r :: rs) =>
      .accessible { name := name, columns := r, sampleRows := r :: rs,
                    totalRows := totalRows, rls := false }
    | some [] =>
      .accessible { name := name, columns := columnSchemas name,
                    sampleRows := [], totalRows := some (totalRows.getD 0),
                    rls := false }
    | none => .dropped

/-- The filtered, capped table catalog (lines 450-452). -/
def catalogNames (schema : SchemaFetch) : List String :=
  match schema with
  | .ok (some defs) =>
    ((defs.map (·.1)).filter (fun n =>
      !jsStartsWith n "_" && !containsSub n "pg_" &&
      !containsSub n "information_schema")).take 12
  | _ => []

/-- The per-table column schemas extracted from the OpenAPI definitions
(lines 454-460). -/
def columnSchemasOf (schema : SchemaFetch) (n : String) : List String :=
  match schema with
  | .ok (some defs) => ((defs.lookup n).bind id).getD []
  | _ => []

/-- The entry a table contributes to the `tables` array, if any. -/
def accessibleTable (cs : String → List String) (tf : String → TableFetch)
    (n : String) : Option ExposedTable :=
  match classifyTable cs n (tf n) with
  | .accessible t => some t
  | _ => none

/-- Whether a table is pushed onto `blockedTables`. -/
def isBlockedTable (cs : String → List String) (tf : String → TableFetch)
    (n : String) : Bool :=
  classifyTable cs n (tf n) = .blocked

/-- `checkSupabaseDataExposure` (lines 429-535).  The concurrent per-table
pushes are modelled in catalog order. -/
def checkSupabaseDataExposure (supabaseUrl anonKey : String)
    (schema : SchemaFetch) (tableFetch : String → TableFetch) :
    Option DataLeaks :=
  let cleanUrl := stripTrailingSlash supabaseUrl
  let tableNames := catalogNames schema
  let columnSchemas := columnSchemasOf schema
  if tableNames.isEmpty then none
  else
    let tables := tableNames.filterMap (accessibleTable columnSchemas tableFetch)
    let blockedTables := tableNames.filter (isBlockedTable columnSchemas tableFetch)
    let openTables := (tables.filter (fun t => !t.sampleRows.isEmpty)).length
    some { supabaseUrl := cleanUrl
           keyPreview := jsTake anonKey 20 ++ "..."
           tables := tables
           blockedTables := blockedTables
           tablesFound := tableNames.length
           openTables := openTables }

/-! ## Display-time redaction (`redactValue`, src/unnamed/part_000 lines 313-342) -/

/-- The JS values a sampled cell can hold. `str`/`num`/`boolean` cover the
JSON-decoded cases; `String(value)` is `JsVal.toText`. -/
inductive JsVal
  | null
  | undef
  | str (s : String)
  | num (n : Int)
  | boolean (b : Bool)
  deriving DecidableEq

def JsVal.toText : JsVal → String
  | .null => "null"
  | .undef => "undefined"
  | .str s => s
  | .num n => toString n
  | .boolean b => if b then "true" else "false"

def JsVal.isString : JsVal → Bool
  | .str _ => true
  | _ => false

/-- JS `'*'.repeat (Math.max 2 (name.length - 2))` (line 328). -/
def maskOf (nameLen : Nat) : String :=
  String.mk (List.replicate (max 2 (nameLen - 2)) '*')

/-- The password/hash/secret/token column-name test (line 320). -/
def sensitiveColumn (col : String) : Bool :=
  let lowerCol := jsToLower col
  containsSub lowerCol "password" || containsSub lowerCol "hash" ||
    containsSub lowerCol "secret" || containsSub lowerCol "token"

/-- `redactValue` (lines 313-342): null/undefined display as a dash; columns
whose lowercased name contains a password/hash/secret/token marker always
yield the fixed 8-character mask; email-shaped strings keep the first two
characters of the local part and the domain after the first `@`; long ids and
long strings are truncated. -/
def redactValue (col : String) (value : JsVal) : String :=
  if value = .null || value = .undef then "—"
  else
    let str := value.toText
    let lowerCol := jsToLower col
    if sensitiveColumn col then
      "●●●●●●●●"
    else if value.isString && containsSub str "@" && containsSub str "." then
      let parts := jsSplit str "@"
      let name := parts.getD 0 ""
      let domain := parts.getD 1 ""
      jsTake name 2 ++ maskOf name.length ++ "@" ++ domain
    else if value.isString && str.length > 20 &&
        (lowerCol = "id" || jsEndsWith lowerCol "_id" || containsSub lowerCol "uuid") then
      jsTake str 8 ++ "…"
    else if value.isString && str.length > 40 then
      jsTake str 38 ++ "…"
    else str

/-! ## Scan Orchestrator (`runScan`, src/unnamed/part_002 lines 576-781) -/

inductive Severity
  | critical | warning | pass | info
  deriving DecidableEq

inductive Category
  | pages | headers | secrets | exposure | ssl
  deriving DecidableEq

structure Check where
  id : String
  category : Category
  name : String
  status : Severity
  detail : String
  value : Option String := none
  deriving DecidableEq

structure Summary where
  critical : Nat
  warnings : Nat
  passed : Nat
  deriving DecidableEq

structure Report where
  url : String
  scannedAt : String
  score : Int
  summary : Summary
  discoveredUrls : List String
  checks : List Check
  dataLeaks : Option DataLeaks
  deriving DecidableEq

/-- The settled results of the five concurrent probes as `runScan` receives
them from `Promise.allSettled` (`none` = the probe rejected), plus the
outcome of the conditional `checkSupabaseDataExposure` call (outer `none` =
that call rejected and was swallowed by the surrounding `catch`). -/
structure ProbeResults where
  discoveredUrls : Option (List String)
  sensitivePaths : Option (List PathFinding)
  securityHeaders : Option (List (String × Option String))
  apiKeys : Option (List ApiKeyFinding)
  cors : Option CorsResult
  dataExposure : Option (Option DataLeaks)

/-- The paths whose exposure is critical (line 629). -/
def criticalExposurePaths : List String :=
  ["/.env", "/.env.local", "/.env.production", "/.git/config", "/database.json"]

/-- One sensitive-path finding (lines 627-640). -/
def exposureCheck (pf : PathFinding) : Check :=
  let isWordPress := pf.path = "/wp-admin"
  let isCritical := criticalExposurePaths.contains pf.path
  { id := "exposure-" ++ String.mk (pf.path.data.map (fun c => if c = '/' then '-' else c))
    category := .exposure
    name := if isWordPress then "WordPress Detected" else "Exposed: " ++ pf.path
    status := if isCritical then .critical else .warning
    detail :=
      if isCritical then
        "⚠️ " ++ pf.path ++ " is publicly accessible! This file may contain secrets, API keys, or database credentials." ++
          (match pf.preview with
           | some p => " Preview: " ++ p
           | none => "")
      else pf.path ++ " returned HTTP 200. Review whether this should be publicly accessible."
    value := some pf.path }

def headerLabel (key : String) : String :=
  if key = "strict-transport-security" then "HSTS (Strict-Transport-Security)"
  else if key = "content-security-policy" then "Content-Security-Policy"
  else if key = "x-frame-options" then "X-Frame-Options"
  else if key = "x-content-type-options" then "X-Content-Type-Options"
  else if key = "referrer-policy" then "Referrer-Policy"
  else "Permissions-Policy"

def headerPassText (key : String) : String :=
  if key = "strict-transport-security" then "HSTS is set — browsers will always use HTTPS."
  else if key = "content-security-policy" then "CSP header present — helps prevent XSS attacks."
  else if key = "x-frame-options" then "X-Frame-Options set — protects against clickjacking."
  else if key = "x-content-type-options" then "X-Content-Type-Options set — prevents MIME sniffing."
  else if key = "referrer-policy" then "Referrer-Policy set — controls referrer information."
  else "Permissions-Policy set — controls browser features."

def headerFailText (key : String) : String :=
  if key = "strict-transport-security" then "HSTS missing — browsers may downgrade to HTTP."
  else if key = "content-security-policy" then "No CSP header — site is more vulnerable to XSS."
  else if key = "x-frame-options" then "X-Frame-Options missing — site can be embedded in iframes (clickjacking risk)."
  else if key = "x-content-type-options" then "X-Content-Type-Options missing — browsers may sniff content types."
  else if key = "referrer-policy" then "Referrer-Policy missing — full URLs may leak in referrer headers."
  else "Permissions-Policy missing — browser features not explicitly restricted."

/-- One security-header finding (lines 680-691).  `headers[key]` is
`undefined` when the probe rejected (`headers = {}`); JS truthiness makes an
empty-string header count as missing. -/
def headerCheck (headers : List (String × Option String)) (key : String) : Check :=
  let value : Option String := ((headers.lookup key).bind id)
  { id := "header-" ++ key
    category := .headers
    name := headerLabel key
    status := if truthyOpt value then .pass else .warning
    detail := if truthyOpt value then headerPassText key else headerFailText key
    value := if truthyOpt value then value else none }

/-- One secret finding (lines 706-718). -/
def secretCheck (k : ApiKeyFinding) : Check :=
  let isServiceRole := k.type = "Supabase Service Role Key"
  { id := "secret-" ++ String.mk ((jsToLower k.type).data.map (fun c => if c.isWhitespace then '-' else c))
    category := .secrets
    name := if isServiceRole then "🚨 Supabase Service Role Key Exposed"
            else "Exposed: " ++ k.type
    status := if k.severity = "critical" then .critical else .warning
    detail :=
      if isServiceRole then
        "CRITICAL: Your Supabase service_role key is in public JavaScript. This key bypasses ALL Row Level Security — every table, every row, no restrictions. Anyone who has this key owns your entire database."
      else "A " ++ k.type ++ " was found in public JavaScript. Rotate this key immediately."
    value := some k.preview }

/-- The `supabase-data-exposure` finding (lines 728-735). -/
def dataExposureCheck (dl : DataLeaks) : Check :=
  let accessibleCount := dl.tables.length
  { id := "supabase-data-exposure"
    category := .secrets
    name := "Database Accessible via Exposed Token"
    status := .critical
    detail := toString accessibleCount ++ " " ++
      (if accessibleCount = 1 then "table" else "tables") ++
      " accessible with your public anon key. " ++
      (if dl.openTables > 0 then toString dl.openTables ++ " returning live rows." else "") ++
      " " ++
      (if dl.blockedTables.length > 0 then toString dl.blockedTables.length ++ " protected by RLS." else "")
    value := some (toString accessibleCount ++ " accessible tables") }

/-- `statusOrder` (line 765). -/
def statusRank : Severity → Nat
  | .critical => 0
  | .warning => 1
  | .pass => 2
  | .info => 3

/-- The final presentation sort (line 766); JS `Array.prototype.sort` is
stable, as is insertion sort. -/
def sortChecks (checks : List Check) : List Check :=
  List.insertionSort (fun a b => statusRank a.status ≤ statusRank b.status) checks

/-- The SSL finding (lines 587-594), evaluated before the probes run. -/
def sslCheckOf (baseUrl : String) : Check :=
  let isHttps := jsStartsWith baseUrl "https://"
  { id := "ssl", category := .ssl, name := "HTTPS / SSL"
    status := if isHttps then .pass else .critical
    detail := if isHttps then "Site uses HTTPS — traffic is encrypted."
              else "Site does not use HTTPS. All traffic is unencrypted." }

/-- The URL-discovery info finding (lines 607-614). -/
def urlCheckOf (urls : List String) : Check :=
  { id := "url-discovery", category := .pages, name := "Page Discovery"
    status := .info
    detail := "Found " ++ toString urls.length ++ " URLs via sitemap, robots.txt, and link crawling."
    value := some (toString urls.length ++ " URLs discovered") }

/-- The sensitive-path findings (lines 617-641): an explicit pass when the
list is empty, one finding per exposed path otherwise. -/
def sensitivePathChecks (exposed : List PathFinding) : List Check :=
  if exposed.isEmpty then
    [{ id := "sensitive-paths", category := .exposure
       name := "Sensitive Path Exposure", status := .pass
       detail := "No sensitive files or paths found publicly accessible." }]
  else exposed.map exposureCheck

/-- The six security-header findings (lines 680-691). -/
def headerChecksOf (headers : List (String × Option String)) : List Check :=
  SECURITY_HEADER_KEYS.map (headerCheck headers)

/-- The secret findings (lines 697-718): an explicit pass when no secret was
found, one finding per detected key otherwise. -/
def secretChecksOf (keys : List ApiKeyFinding) : List Check :=
  if keys.isEmpty then
    [{ id := "api-keys", category := .secrets, name := "API Key Exposure in JS"
       status := .pass
       detail := "No API keys or secrets detected in public JavaScript bundles." }]
  else keys.map secretCheck

/-- The conditional Data-Exposure step (lines 720-738): only entered when
some finding carries both a Supabase URL and key; a rejected
`checkSupabaseDataExposure` call is swallowed leaving `dataLeaks` null; a
null result adds no finding; a non-null result with accessible tables adds
the critical finding. -/
def conditionalDataExposure (keys : List ApiKeyFinding)
    (dataExposure : Option (Option DataLeaks)) :
    Option DataLeaks × List Check :=
  if keys.isEmpty then (none, [])
  else match keys.find? (fun k => truthyOpt k.supabaseUrl && truthyOpt k.supabaseKey) with
    | none => (none, [])
    | some _ =>
      match dataExposure with
      | none => (none, [])
      | some dl? =>
        match dl? with
        | some dl =>
          if dl.openTables > 0 || dl.tables.length > 0 then
            (some dl, [dataExposureCheck dl])
          else (some dl, [])
        | none => (none, [])

/-- The CORS finding (lines 742-752). -/
def corsCheckOf (corsResult : CorsResult) : Check :=
  { id := "cors", category := .headers, name := "CORS Policy"
    status := if corsResult.open_ then .warning else .pass
    detail := if corsResult.open_ then
        "CORS is wide open (Access-Control-Allow-Origin: *). Any website can make API requests to your app."
      else "CORS policy appears correctly configured."
    value := if truthyOpt corsResult.header then corsResult.header else none }

/-- The unsorted finding list and the `dataLeaks` value of one scan
(lines 586-752), in push order. -/
def scanChecksAndLeaks (baseUrl : String) (pr : ProbeResults) :
    List Check × Option DataLeaks :=
  let urls := pr.discoveredUrls.getD []
  let exposed := pr.sensitivePaths.getD []
  let headers := pr.securityHeaders.getD []
  let keys := pr.apiKeys.getD []
  let dld := conditionalDataExposure keys pr.dataExposure
  let corsResult := pr.cors.getD { open_ := false, header := none }
  ([sslCheckOf baseUrl, urlCheckOf urls] ++ sensitivePathChecks exposed ++
    headerChecksOf headers ++ secretChecksOf keys ++ dld.2 ++ [corsCheckOf corsResult],
   dld.1)

/-- The score computation (lines 754-762). -/
def scoreOf (criticalCount warningCount : Nat) : Int :=
  max 0 (min 100 (100 - (criticalCount : Int) * 20 - (warningCount : Int) * 5))

def countStatus (checks : List Check) (s : Severity) : Nat :=
  (checks.filter (fun c => c.status = s)).length

/-- `runScan` (lines 576-781) as a pure function of the settled probe
results; `now` is `new Date().toISOString()`. -/
def runScan (baseUrl now : String) (pr : ProbeResults) : Report :=
  let (checks, dataLeaks) := scanChecksAndLeaks baseUrl pr
  let criticalCount := countStatus checks .critical
  let warningCount := countStatus checks .warning
  let passCount := countStatus checks .pass
  { url := baseUrl
    scannedAt := now
    score := scoreOf criticalCount warningCount
    summary := { critical := criticalCount, warnings := warningCount,
                 passed := passCount }
    discoveredUrls := pr.discoveredUrls.getD []
    checks := sortChecks checks
    dataLeaks := dataLeaks }

/-! ## The POST handler's global deadline
(`POST`, src/unnamed/part_002 lines 537-574)

`Promise.race([scanPromise, timeoutPromise])` is modelled on settled
promises: each carries the time at which it settles and its outcome, and the
race is won by the earlier settlement (the scan, listed first, wins ties).
The timeout promise rejects with `Scan timeout` at 25000 ms. -/

structure SettledPromise (α : Type) where
  settleAt : Nat
  outcome : Except String α

def promiseRace {α : Type} (p q : SettledPromise α) : SettledPromise α :=
  if p.settleAt ≤ q.settleAt then p else q

def SCAN_TIMEOUT_MS : Nat := 25000

def timeoutPromise : SettledPromise Report :=
  { settleAt := SCAN_TIMEOUT_MS, outcome := .error "Scan timeout" }

/-- The POST handler's result for a well-formed target: the race of the scan
against the global deadline; an `Except.error` becomes the 500 response with
no report attached. -/
def postOutcome (scan : SettledPromise Report) : Except String Report :=
  (promiseRace scan timeoutPromise).outcome

/-! ## Supporting lemmas -/

theorem jsStartsWith_iff {s p : String} :
    jsStartsWith s p = true ↔ p.data <+: s.data := by
  simp [jsStartsWith, List.isPrefixOf_iff_prefix]

theorem jsEndsWith_iff {s p : String} :
    jsEndsWith s p = true ↔ p.data <:+ s.data := by
  simp [jsEndsWith, List.isSuffixOf_iff_suffix]

theorem stripTrailingSlash_of_not_slash {u : String}
    (h : jsEndsWith u "/" = false) : stripTrailingSlash u = u := by
  simp [stripTrailingSlash, h]

theorem prefix_dropLast {α : Type} {s w : List α} (h : s <+: w)
    (hl : s.length < w.length) : s <+: w.dropLast := by
  obtain ⟨r, rfl⟩ := h
  have hr : r ≠ [] := by
    intro hnil
    simp [hnil] at hl
  rw [List.dropLast_append_of_ne_nil _ hr]
  exact List.prefix_append ..

/-- `normalizeUrl` on a string that already carries a scheme. -/
theorem normalizeUrl_of_scheme {x : String}
    (hc : (!jsStartsWith x "http://" && !jsStartsWith x "https://") = false) :
    normalizeUrl x = stripTrailingSlash x := by
  simp only [normalizeUrl, hc, Bool.false_eq_true, if_false]

/-- After normalization the URL starts with one of the two schemes, unless
the normal form is a degenerate `http:/`-style string ending in `/`. -/
theorem normalizeUrl_scheme (u : String)
    (h : jsEndsWith (normalizeUrl u) "/" = false) :
    jsStartsWith (normalizeUrl u) "http://" = true \/
      jsStartsWith (normalizeUrl u) "https://" = true := by
  have hv : normalizeUrl u = stripTrailingSlash
      (if !jsStartsWith u "http://" && !jsStartsWith u "https://" then
        "https://" ++ u else u) := rfl
  set v := (if !jsStartsWith u "http://" && !jsStartsWith u "https://" then
    "https://" ++ u else u) with hvdef
  have hP : jsStartsWith v "http://" = true \/ jsStartsWith v "https://" = true := by
    by_cases hc : (!jsStartsWith u "http://" && !jsStartsWith u "https://") = true
    · right
      rw [hvdef, if_pos hc, jsStartsWith_iff, String.data_append]
      exact List.prefix_append ..
    · rw [hvdef, if_neg hc]
      by_cases h1 : jsStartsWith u "http://" = true
      · exact Or.inl h1
      · by_cases h2 : jsStartsWith u "https://" = true
        · exact Or.inr h2
        · exact absurd (by
            simp only [Bool.not_eq_true] at h1 h2
            simp [h1, h2]) hc
  by_cases hE : jsEndsWith v "/" = true
  · -- v ends in '/': the normal form is `v` without its last character
    obtain ⟨t, ht⟩ : ∃ t, t ++ ['/'] = v.data := jsEndsWith_iff.mp hE
    have hstrip : normalizeUrl u = String.mk v.data.dropLast := by
      rw [hv]; simp [stripTrailingSlash, hE]
    rcases hP with hs | hs
    · left
      have hpre : ("http://" : String).data <+: v.data := jsStartsWith_iff.mp hs
      rcases Nat.lt_or_ge ("http://" : String).data.length v.data.length with hlt | hge
      · rw [jsStartsWith_iff, hstrip]
        exact prefix_dropLast hpre hlt
      · have heq : ("http://" : String).data = v.data :=
          hpre.eq_of_length (Nat.le_antisymm hpre.length_le hge)
        rw [hstrip, ← heq] at h
        exact absurd h (by decide)
    · right
      have hpre : ("https://" : String).data <+: v.data := jsStartsWith_iff.mp hs
      rcases Nat.lt_or_ge ("https://" : String).data.length v.data.length with hlt | hge
      · rw [jsStartsWith_iff, hstrip]
        exact prefix_dropLast hpre hlt
      · have heq : ("https://" : String).data = v.data :=
          hpre.eq_of_length (Nat.le_antisymm hpre.length_le hge)
        rw [hstrip, ← heq] at h
        exact absurd h (by decide)
  · have hE' : jsEndsWith v "/" = false := by
      simpa using hE
    rw [hv, stripTrailingSlash_of_not_slash hE']
    exact hP

/-! ## Claim C10 — idempotence of `normalizeUrl` -/

/-- C10, counterexample: `normalizeUrl` is not idempotent on every input.
`normalizeUrl "/"` is `"https://"` (the default scheme is prepended and the
trailing slash of the path is stripped), but a second application strips the
slash of the scheme itself, yielding `"https:/"`. -/
theorem C10_counterexample :
    normalizeUrl (normalizeUrl "/") ≠ normalizeUrl "/" ∧
      normalizeUrl "/" = "https://" ∧
      normalizeUrl (normalizeUrl "/") = "https:/" := by
  refine ⟨?_, by decide, by decide⟩
  decide

/-- C10 (amended): `normalizeUrl` is idempotent on every input whose
one-pass normal form does not end in `/` — equivalently, the normalized
target recorded in a report is a fixed point of normalization whenever it
does not end with a slash.  (The exceptions are exactly the degenerate
inputs, such as `""`, `"/"` or `"https://"`, whose normal form ends in `/`
because stripping the trailing slash cut into the scheme or left a second
trailing slash.) -/
theorem C10_normalizeUrl_idempotent (u : String)
    (h : jsEndsWith (normalizeUrl u) "/" = false) :
    normalizeUrl (normalizeUrl u) = normalizeUrl u := by
  have hs := normalizeUrl_scheme u h
  have hcond : (!jsStartsWith (normalizeUrl u) "http://" &&
      !jsStartsWith (normalizeUrl u) "https://") = false := by
    rcases hs with hs | hs <;> simp [hs]
  rw [normalizeUrl_of_scheme hcond, stripTrailingSlash_of_not_slash h]

/-- C10, witness: a representative input (a bare host) reaching the amended
theorem's conclusion. -/
theorem C10_witness :
    normalizeUrl (normalizeUrl "example.com") = normalizeUrl "example.com" :=
  C10_normalizeUrl_idempotent "example.com" (by decide)

/-! ## Claim C2 — the score formula -/

theorem countStatus_sortChecks (l : List Check) (s : Severity) :
    countStatus (sortChecks l) s = countStatus l s := by
  unfold countStatus sortChecks
  exact ((List.perm_insertionSort _ l).filter _).length_eq

/-- C2: for every scan that completes, the report's score equals
`100 − 20·critical − 5·warning` over the report's findings, clamped to
`[0, 100]` (and is therefore always within that interval). -/
theorem C2_score (baseUrl now : String) (pr : ProbeResults) :
    (runScan baseUrl now pr).score =
      max 0 (min 100
        (100 - 20 * (countStatus (runScan baseUrl now pr).checks .critical : Int)
             - 5 * (countStatus (runScan baseUrl now pr).checks .warning : Int))) ∧
    0 ≤ (runScan baseUrl now pr).score ∧ (runScan baseUrl now pr).score ≤ 100 := by
  rcases hcd : scanChecksAndLeaks baseUrl pr with ⟨checks, dl⟩
  simp only [runScan, hcd]
  rw [countStatus_sortChecks, countStatus_sortChecks]
  unfold scoreOf
  omega

/-! ## Claim C3 — the global 25-second deadline -/

/-- Lower bound on the number of findings of any completed scan: the SSL
check, the URL-discovery info line, at least one sensitive-path entry, six
header entries, at least one secrets entry and the CORS entry are always
present, whatever the probe outcomes. -/
theorem runScan_checks_length (baseUrl now : String) (pr : ProbeResults) :
    11 ≤ (runScan baseUrl now pr).checks.length := by
  have h1 : 1 ≤ (sensitivePathChecks (pr.sensitivePaths.getD [])).length := by
    cases pr.sensitivePaths.getD [] <;> simp [sensitivePathChecks]
  have h2 : 1 ≤ (secretChecksOf (pr.apiKeys.getD [])).length := by
    cases pr.apiKeys.getD [] <;> simp [secretChecksOf]
  have h3 : (headerChecksOf (pr.securityHeaders.getD [])).length = 6 := by
    simp [headerChecksOf, SECURITY_HEADER_KEYS]
  rcases hcd : scanChecksAndLeaks baseUrl pr with ⟨checks, dl⟩
  have hck : checks = (scanChecksAndLeaks baseUrl pr).1 := by rw [hcd]
  have hlen : 11 ≤ checks.length := by
    rw [hck]
    simp only [scanChecksAndLeaks, List.length_append, List.length_cons,
      List.length_nil]
    omega
  have : (runScan baseUrl now pr).checks = sortChecks checks := by
    simp [runScan, hcd]
  rw [this]
  calc 11 ≤ checks.length := hlen
    _ = (sortChecks checks).length := ((List.perm_insertionSort _ checks).length_eq).symm

/-- C3: the scan races against a single global 25000 ms deadline.  If the
combined probe set settles only after the deadline, the POST handler returns
the scan-level `Scan timeout` error and no report; if it settles within the
deadline, the complete report is returned — for **every** combination of
per-probe outcomes, including ones where an individual probe timed out
(`none` in `ProbeResults`), whose findings are then simply absent while the
report keeps its full structure (at least its 11 unconditional findings). -/
theorem C3_global_deadline (baseUrl now : String) (pr : ProbeResults) (t : Nat) :
    (t > SCAN_TIMEOUT_MS →
      postOutcome ⟨t, .ok (runScan baseUrl now pr)⟩ = .error "Scan timeout") ∧
    (t ≤ SCAN_TIMEOUT_MS →
      postOutcome ⟨t, .ok (runScan baseUrl now pr)⟩ = .ok (runScan baseUrl now pr) ∧
      11 ≤ (runScan baseUrl now pr).checks.length) := by
  constructor
  · intro ht
    have : ¬ t ≤ SCAN_TIMEOUT_MS := by omega
    simp [postOutcome, promiseRace, timeoutPromise, this]
  · intro ht
    refine ⟨?_, runScan_checks_length baseUrl now pr⟩
    simp [postOutcome, promiseRace, timeoutPromise, ht]

/-- The settled probe results of a scan in which every probe failed or timed
out (every `Promise.allSettled` slot rejected, and the conditional
data-exposure call — never reached — rejected as well). -/
def probesAllFailed : ProbeResults :=
  { discoveredUrls := none, sensitivePaths := none, securityHeaders := none
    apiKeys := none, cors := none, dataExposure := none }

/-- C3, witness: at 26000 ms the handler yields the timeout error; at
10000 ms it yields the complete report of a scan whose probes all failed. -/
theorem C3_witness :
    postOutcome ⟨26000, .ok (runScan "https://example.com" "T" probesAllFailed)⟩ =
        .error "Scan timeout" ∧
      postOutcome ⟨10000, .ok (runScan "https://example.com" "T" probesAllFailed)⟩ =
        .ok (runScan "https://example.com" "T" probesAllFailed) :=
  ⟨(C3_global_deadline "https://example.com" "T" probesAllFailed 26000).1 (by decide),
   ((C3_global_deadline "https://example.com" "T" probesAllFailed 10000).2 (by decide)).1⟩

/-! ## Claim C4 — findings contributed by failed probes -/

/-- C4, counterexample: a probe that fails does **not** always contribute
zero findings.  In a scan where the header-inspection probe rejected
(`securityHeaders = none`) the report nevertheless contains a missing-HSTS
*warning* finding (and likewise for the other five headers), because a
rejected probe is folded exactly like a successful probe that found nothing.
So the claim's "contributes no finding except the sensitive-path pass"
fails on the header inspector (as well as on URL discovery's info line, the
secret scanner's pass line and the CORS pass line). -/
theorem C4_counterexample :
    probesAllFailed.securityHeaders = none ∧
      ({ id := "header-strict-transport-security", category := .headers
         name := "HSTS (Strict-Transport-Security)", status := .warning
         detail := "HSTS missing — browsers may downgrade to HTTP."
         value := none } : Check) ∈
        (runScan "https://example.com" "T" probesAllFailed).checks := by
  refine ⟨rfl, ?_⟩
  decide

/-- The full (sorted) finding list of a scan over an `https` target in which
every probe failed. -/
def failedScanChecks : List Check :=
  [{ id := "header-strict-transport-security", category := .headers,
     name := "HSTS (Strict-Transport-Security)", status := .warning,
     detail := "HSTS missing — browsers may downgrade to HTTP.", value := none },
   { id := "header-content-security-policy", category := .headers,
     name := "Content-Security-Policy", status := .warning,
     detail := "No CSP header — site is more vulnerable to XSS.", value := none },
   { id := "header-x-frame-options", category := .headers,
     name := "X-Frame-Options", status := .warning,
     detail := "X-Frame-Options missing — site can be embedded in iframes (clickjacking risk).",
     value := none },
   { id := "header-x-content-type-options", category := .headers,
     name := "X-Content-Type-Options", status := .warning,
     detail := "X-Content-Type-Options missing — browsers may sniff content types.",
     value := none },
   { id := "header-referrer-policy", category := .headers,
     name := "Referrer-Policy", status := .warning,
     detail := "Referrer-Policy missing — full URLs may leak in referrer headers.",
     value := none },
   { id := "header-permissions-policy", category := .headers,
     name := "Permissions-Policy", status := .warning,
     detail := "Permissions-Policy missing — browser features not explicitly restricted.",
     value := none },
   { id := "ssl", category := .ssl, name := "HTTPS / SSL", status := .pass,
     detail := "Site uses HTTPS — traffic is encrypted.", value := none },
   { id := "sensitive-paths", category := .exposure,
     name := "Sensitive Path Exposure", status := .pass,
     detail := "No sensitive files or paths found publicly accessible.", value := none },
   { id := "api-keys", category := .secrets, name := "API Key Exposure in JS",
     status := .pass,
     detail := "No API keys or secrets detected in public JavaScript bundles.",
     value := none },
   { id := "cors", category := .headers, name := "CORS Policy", status := .pass,
     detail := "CORS policy appears correctly configured.", value := none },
   { id := "url-discovery", category := .pages, name := "Page Discovery",
     status := .info,
     detail := "Found 0 URLs via sitemap, robots.txt, and link crawling.",
     value := some "0 URLs discovered" }]

/-- C4 (amended): a probe that fails or times out never contributes an
*error* finding and never aborts the report, but it is folded exactly like a
successful probe with an empty result: for an `https` target with every
probe failed the report consists of precisely six missing-header warnings
(header inspection), the SSL pass, the explicit sensitive-path pass, the
explicit no-secrets pass, the CORS-configured pass, and the zero-URL info
line — the sensitive-path pass is thus not the only finding a failed probe
produces. -/
theorem C4_failed_probe_findings (baseUrl now : String)
    (hs : jsStartsWith baseUrl "https://" = true) :
    (runScan baseUrl now probesAllFailed).checks = failedScanChecks := by
  have hssl : sslCheckOf baseUrl =
      { id := "ssl", category := .ssl, name := "HTTPS / SSL", status := .pass
        detail := "Site uses HTTPS — traffic is encrypted.", value := none } := by
    simp [sslCheckOf, hs]
  unfold runScan scanChecksAndLeaks
  rw [hssl]
  rfl

/-- C4, witness for the amended theorem. -/
theorem C4_witness :
    (runScan "https://example.com" "T" probesAllFailed).checks = failedScanChecks :=
  C4_failed_probe_findings "https://example.com" "T" (by decide)

/-! ## Claim C9 — display-time redaction -/

/-- C9, counterexample: the claim fails in two places.  A `null` cell in a
`password_hash` column displays as the placeholder dash, not as the
fixed-length mask (so "any value … regardless of type" is too strong), and
an email-shaped value in a column whose name carries a marker (here `token`)
is fully masked rather than email-redacted (so the email rule does not apply
to "any email-shaped string value"). -/
theorem C9_counterexample :
    (redactValue "password_hash" JsVal.null = "—" ∧ "—" ≠ "●●●●●●●●") ∧
      redactValue "token" (JsVal.str "ab@c.d") = "●●●●●●●●" := by
  refine ⟨⟨by decide, by decide⟩, by decide⟩

/-- C9 (amended): for every sampled cell holding an actual value (not
`null`/`undefined`), a column whose lowercased name contains a
password/hash/secret/token marker redacts to the fixed 8-character mask
regardless of the value's content, length or type; and in columns without
such a marker, an email-shaped string value (splitting at `@` into a local
part and a domain, and containing a `.`) redacts to the local part's first
two characters, a mask, and `@` plus the domain, with the domain preserved
exactly. -/
theorem C9_redactValue (col : String) :
    (∀ v : JsVal, sensitiveColumn col = true → v ≠ .null → v ≠ .undef →
      redactValue col v = "●●●●●●●●") ∧
    (∀ s name domain : String, sensitiveColumn col = false →
      containsSub s "@" = true → containsSub s "." = true →
      jsSplit s "@" = [name, domain] →
      redactValue col (.str s) =
        jsTake name 2 ++ maskOf name.length ++ "@" ++ domain) := by
  constructor
  · intro v hcol hn hu
    have h1 : (v = JsVal.null ∨ v = JsVal.undef) = False := by
      simp [hn, hu]
    simp [redactValue, h1, hcol]
  · intro s name domain hcol hat hdot hsplit
    simp [redactValue, hcol, JsVal.isString, JsVal.toText, hat, hdot, hsplit]

/-- C9, witness: concrete instances of both amended redaction rules. -/
theorem C9_witness :
    redactValue "password_hash" (JsVal.str "hunter2") = "●●●●●●●●" ∧
      redactValue "email" (JsVal.str "alice@example.com") =
        "al***@example.com" := by
  constructor
  · exact (C9_redactValue "password_hash").1 (JsVal.str "hunter2") (by decide)
      (by decide) (by decide)
  · have h := (C9_redactValue "email").2 "alice@example.com" "alice" "example.com"
      (by decide) (by decide) (by decide) (by decide)
    rw [h]
    decide

/-! ## Claims C5 and C6 — Data-Exposure probe semantics -/

/-- A 2xx sample response whose JSON body is not an array: the one outcome
that falls through both `Array.isArray` branches. -/
def isNonArrayOk : TableFetch → Bool
  | .ok none _ => true
  | _ => false

theorem classifyTable_accessible_name (cs : String → List String) (n : String) :
    ∀ tfv t, classifyTable cs n tfv = .accessible t → t.name = n := by
  intro tfv t h
  cases tfv with
  | fail => simp [classifyTable] at h
  | notOk => simp [classifyTable] at h
  | ok rows cr =>
    cases rows with
    | none => simp [classifyTable] at h
    | some l =>
      cases l with
      | nil =>
        simp only [classifyTable, TableClass.accessible.injEq] at h
        rw [← h]
      | cons r rs =>
        simp only [classifyTable, TableClass.accessible.injEq] at h
        rw [← h]

/-- Helper: a produced `tables` entry always carries its own table name. -/
theorem accessibleTable_name (cs : String → List String)
    (tb : String → TableFetch) (n : String) (t : ExposedTable)
    (h : accessibleTable cs tb n = some t) : t.name = n := by
  apply classifyTable_accessible_name cs n (tb n) t
  unfold accessibleTable at h
  rcases hc : classifyTable cs n (tb n) with _ | t' | _ <;> rw [hc] at h <;>
    simp only [Option.some.injEq, reduceCtorEq] at h
  rw [← h]

/-- Every cataloged table whose own sample query did not return a 2xx
non-array body lands in exactly one bucket: open, blocked, or
accessible-but-empty. -/
theorem partition_count (cs : String → List String) (tf : String → TableFetch) :
    ∀ names : List String,
      (∀ n ∈ names, isNonArrayOk (tf n) = false) →
      ((names.filterMap (accessibleTable cs tf)).filter
          (fun t => !t.sampleRows.isEmpty)).length +
        (names.filter (isBlockedTable cs tf)).length +
        ((names.filterMap (accessibleTable cs tf)).filter
          (fun t => t.sampleRows.isEmpty)).length = names.length := by
  intro names
  induction names with
  | nil => simp
  | cons n ns ih =>
    intro h
    have hn := h n (List.mem_cons_self n ns)
    have ihs := ih (fun m hm => h m (List.mem_cons_of_mem n hm))
    rcases htf : tf n with _ | _ | ⟨rows, cr⟩
    · have hacc : accessibleTable cs tf n = none := by
        simp [accessibleTable, classifyTable, htf]
      have hblk : isBlockedTable cs tf n = true := by
        simp [isBlockedTable, classifyTable, htf]
      simp [List.filterMap_cons, List.filter_cons, hacc, hblk] <;> omega
    · have hacc : accessibleTable cs tf n = none := by
        simp [accessibleTable, classifyTable, htf]
      have hblk : isBlockedTable cs tf n = true := by
        simp [isBlockedTable, classifyTable, htf]
      simp [List.filterMap_cons, List.filter_cons, hacc, hblk] <;> omega
    · cases rows with
      | none =>
        rw [htf] at hn
        simp [isNonArrayOk] at hn
      | some l =>
        have hblk : isBlockedTable cs tf n = false := by
          cases l <;> simp [isBlockedTable, classifyTable, htf]
        cases l with
        | nil =>
          have hacc : accessibleTable cs tf n = some
              { name := n, columns := cs n, sampleRows := []
                totalRows := some ((parseContentRange cr).getD 0), rls := false } := by
            simp [accessibleTable, classifyTable, htf]
          simp [List.filterMap_cons, List.filter_cons, hacc, hblk] <;> omega
        | cons r rs =>
          have hacc : accessibleTable cs tf n = some
              { name := n, columns := r, sampleRows := r :: rs
                totalRows := parseContentRange cr, rls := false } := by
            simp [accessibleTable, classifyTable, htf]
          simp [List.filterMap_cons, List.filter_cons, hacc, hblk] <;> omega

/-- C5: failure semantics of the Data-Exposure probe.  (1) A failed
schema-catalog step — thrown fetch, non-2xx response, or JSON without a
`definitions` object — aborts the whole probe with the null result `none`
(never a "failed" report).  (2) Whenever the probe does produce a result, a
cataloged table whose own sample query threw or returned non-2xx is
classified as blocked.  (3) With a non-empty catalog the probe always
produces a result.  (4) Per-table locality: changing one table's response
never changes the classification of any other table, so one table's failure
cannot abort the rest of the batch. -/
theorem C5_data_exposure_failure (url key : String) (schema : SchemaFetch)
    (tbl tbl₁ tbl₂ : String → TableFetch) (n0 : String) :
    (checkSupabaseDataExposure url key .fail tbl = none ∧
     checkSupabaseDataExposure url key .notOk tbl = none ∧
     checkSupabaseDataExposure url key (.ok none) tbl = none) ∧
    (∀ dl, checkSupabaseDataExposure url key schema tbl = some dl →
      ∀ n ∈ catalogNames schema, (tbl n = .fail ∨ tbl n = .notOk) →
        n ∈ dl.blockedTables) ∧
    (catalogNames schema ≠ [] →
      (checkSupabaseDataExposure url key schema tbl).isSome = true) ∧
    ((∀ n, n ≠ n0 → tbl₁ n = tbl₂ n) →
      ∀ dl₁ dl₂, checkSupabaseDataExposure url key schema tbl₁ = some dl₁ →
        checkSupabaseDataExposure url key schema tbl₂ = some dl₂ →
        dl₁.tables.filter (fun t => t.name != n0) =
          dl₂.tables.filter (fun t => t.name != n0) ∧
        dl₁.blockedTables.filter (fun n => n != n0) =
          dl₂.blockedTables.filter (fun n => n != n0) ∧
        dl₁.tablesFound = dl₂.tablesFound) := by
  refine ⟨⟨rfl, rfl, rfl⟩, ?_, ?_, ?_⟩
  · intro dl hres n hmem hfail
    unfold checkSupabaseDataExposure at hres
    by_cases he : (catalogNames schema).isEmpty
    · simp [he] at hres
    · simp only [he, Bool.false_eq_true, if_false, Option.some.injEq] at hres
      rw [← hres]
      simp only [List.mem_filter]
      refine ⟨hmem, ?_⟩
      rcases hfail with hf | hf <;>
        simp [isBlockedTable, classifyTable, hf]
  · intro hne
    unfold checkSupabaseDataExposure
    have : (catalogNames schema).isEmpty = false := by
      cases hcn : catalogNames schema with
      | nil => exact absurd hcn hne
      | cons a l => simp
    simp [this]
  · intro hagree dl₁ dl₂ h1 h2
    unfold checkSupabaseDataExposure at h1 h2
    by_cases he : (catalogNames schema).isEmpty
    · simp [he] at h1
    · simp only [he, Bool.false_eq_true, if_false, Option.some.injEq] at h1 h2
      rw [← h1, ← h2]
      refine ⟨?_, ?_, rfl⟩
      · rw [List.filter_filterMap, List.filter_filterMap]
        apply List.filterMap_congr
        intro n _
        by_cases hn : n = n0
        · subst hn
          rcases ha : accessibleTable (columnSchemasOf schema) tbl₁ n with _ | t₁
          · rcases hb : accessibleTable (columnSchemasOf schema) tbl₂ n with _ | t₂
            · rfl
            · have h2n := accessibleTable_name (columnSchemasOf schema) tbl₂ n t₂ hb
              simp [Option.filter, h2n]
          · have h1n := accessibleTable_name (columnSchemasOf schema) tbl₁ n t₁ ha
            rcases hb : accessibleTable (columnSchemasOf schema) tbl₂ n with _ | t₂
            · simp [Option.filter, h1n]
            · have h2n := accessibleTable_name (columnSchemasOf schema) tbl₂ n t₂ hb
              simp [Option.filter, h1n, h2n]
        · rw [accessibleTable, accessibleTable, hagree n hn]
      · rw [List.filter_filter, List.filter_filter]
        apply List.filter_congr
        intro n _
        by_cases hn : n = n0
        · subst hn
          simp
        · rw [isBlockedTable, isBlockedTable, hagree n hn]

/-- C5, witness: a concrete probe run in which table `a`'s sample query
threw while table `b` answered with an empty array — `a` is blocked, the
probe still returns a (non-null) result covering `b`, and a failed schema
fetch returns the null result. -/
theorem C5_witness :
    checkSupabaseDataExposure "https://x.supabase.co" "anonkey" .fail
        (fun _ => TableFetch.ok (some []) none) = none ∧
      "a" ∈ (({ supabaseUrl := "https://x.supabase.co", keyPreview := "anonkey..."
                tables := [{ name := "b", columns := [], sampleRows := []
                             totalRows := some 7, rls := false }]
                blockedTables := ["a"], tablesFound := 2
                openTables := 0 } : DataLeaks)).blockedTables := by
  constructor
  · exact (C5_data_exposure_failure "https://x.supabase.co" "anonkey"
      (.ok (some [("a", some ["id"]), ("b", none)]))
      (fun _ => TableFetch.ok (some []) none)
      (fun _ => TableFetch.ok (some []) none)
      (fun _ => TableFetch.ok (some []) none) "a").1.1
  · exact (C5_data_exposure_failure "https://x.supabase.co" "anonkey"
      (.ok (some [("a", some ["id"]), ("b", none)]))
      (fun n => if n = "a" then TableFetch.fail else TableFetch.ok (some []) (some "0-0/7"))
      (fun _ => TableFetch.ok (some []) none)
      (fun _ => TableFetch.ok (some []) none) "a").2.1
      _ (by rfl) "a" (by decide) (Or.inl (by decide))

/-- C6, counterexample: the three-way partition can miss a table.  With one
cataloged table whose sample query returns 2xx with a JSON body that is
**not** an array (for instance an error object), the table is dropped from
every bucket: `openTables + blockedTables + emptyAccessible = 0` while
`tablesFound = 1`. -/
theorem C6_counterexample :
    checkSupabaseDataExposure "https://x.supabase.co" "anonkey"
        (.ok (some [("users", none)])) (fun _ => TableFetch.ok none none) =
      some { supabaseUrl := "https://x.supabase.co", keyPreview := "anonkey..."
             tables := [], blockedTables := [], tablesFound := 1
             openTables := 0 } ∧
      0 + 0 + 0 ≠ 1 := by
  exact ⟨by decide, by decide⟩

/-- C6 (amended): for every Data-Exposure run that completes the
schema-catalog step, **and in which no sampled table returns a 2xx response
with a non-array JSON body**, the number of open tables plus the number of
blocked tables plus the number of accessible-but-empty tables equals the
number of cataloged tables (`tablesFound`); a 2xx non-array body drops its
table from all three buckets. -/
theorem C6_partition (url key : String) (schema : SchemaFetch)
    (tbl : String → TableFetch) (dl : DataLeaks)
    (hres : checkSupabaseDataExposure url key schema tbl = some dl)
    (harr : ∀ n ∈ catalogNames schema, isNonArrayOk (tbl n) = false) :
    dl.openTables + dl.blockedTables.length +
      (dl.tables.filter (fun t => t.sampleRows.isEmpty)).length =
      dl.tablesFound := by
  unfold checkSupabaseDataExposure at hres
  by_cases he : (catalogNames schema).isEmpty
  · simp [he] at hres
  · simp only [he, Bool.false_eq_true, if_false, Option.some.injEq] at hres
    rw [← hres]
    exact partition_count (columnSchemasOf schema) tbl (catalogNames schema) harr

/-- C6, witness: a two-table catalog with one blocked and one
accessible-but-empty table satisfies the partition `0 + 1 + 1 = 2`. -/
theorem C6_witness :
    ({ supabaseUrl := "https://x.supabase.co", keyPreview := "anonkey..."
       tables := [{ name := "b", columns := [], sampleRows := []
                    totalRows := some 7, rls := false }]
       blockedTables := ["a"], tablesFound := 2
       openTables := 0 } : DataLeaks).openTables +
      ({ supabaseUrl := "https://x.supabase.co", keyPreview := "anonkey..."
         tables := [{ name := "b", columns := [], sampleRows := []
                      totalRows := some 7, rls := false }]
         blockedTables := ["a"], tablesFound := 2
         openTables := 0 } : DataLeaks).blockedTables.length +
      (({ supabaseUrl := "https://x.supabase.co", keyPreview := "anonkey..."
          tables := [{ name := "b", columns := [], sampleRows := []
                       totalRows := some 7, rls := false }]
          blockedTables := ["a"], tablesFound := 2
          openTables := 0 } : DataLeaks).tables.filter
        (fun t => t.sampleRows.isEmpty)).length =
      ({ supabaseUrl := "https://x.supabase.co", keyPreview := "anonkey..."
         tables := [{ name := "b", columns := [], sampleRows := []
                      totalRows := some 7, rls := false }]
         blockedTables := ["a"], tablesFound := 2
         openTables := 0 } : DataLeaks).tablesFound :=
  C6_partition "https://x.supabase.co" "anonkey"
    (.ok (some [("a", some ["id"]), ("b", none)]))
    (fun n => if n = "a" then TableFetch.fail else TableFetch.ok (some []) (some "0-0/7"))
    _ (by decide) (by decide)

/-! ## Claim C8 — Supabase JWT classification -/

/-- A JWT-shaped match whose payload decodes with a `service_role` claim. -/
def serviceDecode (dec : String → Option Payload) (k : String) : Bool :=
  let parts := jsSplit k "."
  if parts.length ≥ 2 then
    match dec (parts.getD 1 "") with
    | some p => p.role = some "service_role"
    | none => false
  else false

/-- A JWT-shaped match whose payload decodes with an anon-equivalent claim
(the branch that records the data-exposure credential). -/
def anonDecode (dec : String → Option Payload) (k : String) : Bool :=
  let parts := jsSplit k "."
  if parts.length ≥ 2 then
    match dec (parts.getD 1 "") with
    | some p =>
      if p.role = some "service_role" then false
      else if p.role = some "anon" ∨ p.iss = some "supabase" then true
      else false
    | none => false
  else false

/-- One fold step never changes the base finding's `type`. -/
theorem jwtStep_type (dec : String → Option Payload) (url : String)
    (st : List ApiKeyFinding × ApiKeyFinding × Option String) (k : String) :
    (jwtStep dec url st k).2.1.type = st.2.1.type := by
  rcases st with ⟨acc, f, d⟩
  by_cases hp : (jsSplit k ".").length ≥ 2
  · rcases hdec : dec ((jsSplit k ".").getD 1 "") with _ | p
    · simp only [jwtStep, hdec]
      rw [if_pos hp]
      by_cases hd : d.isNone
      · rw [if_pos hd]
      · rw [if_neg hd]
    · simp only [jwtStep, hdec]
      rw [if_pos hp]
      by_cases h1 : p.role = some "service_role"
      · rw [if_pos h1]
      · rw [if_neg h1]
        by_cases h2 : p.role = some "anon" ∨ p.iss = some "supabase"
        · rw [if_pos h2]
        · rw [if_neg h2]
  · simp only [jwtStep]
    rw [if_neg hp]

theorem foldl_jwtStep_type (dec : String → Option Payload) (url : String) :
    ∀ (l : List String) (st : List ApiKeyFinding × ApiKeyFinding × Option String),
      (l.foldl (jwtStep dec url) st).2.1.type = st.2.1.type := by
  intro l
  induction l with
  | nil => intro st; rfl
  | cons k l' ih =>
    intro st
    rw [List.foldl_cons, ih (jwtStep dec url st k), jwtStep_type]

/-- One fold step never removes findings already pushed. -/
theorem jwtStep_acc_mono (dec : String → Option Payload) (url : String)
    (st : List ApiKeyFinding × ApiKeyFinding × Option String) (k : String)
    (x : ApiKeyFinding) (hx : x ∈ st.1) : x ∈ (jwtStep dec url st k).1 := by
  rcases st with ⟨acc, f, d⟩
  by_cases hp : (jsSplit k ".").length ≥ 2
  · rcases hdec : dec ((jsSplit k ".").getD 1 "") with _ | p
    · simp only [jwtStep, hdec]
      rw [if_pos hp]
      by_cases hd : d.isNone
      · rw [if_pos hd]
        exact hx
      · rw [if_neg hd]
        exact hx
    · simp only [jwtStep, hdec]
      rw [if_pos hp]
      by_cases h1 : p.role = some "service_role"
      · rw [if_pos h1]
        exact List.mem_append_left _ hx
      · rw [if_neg h1]
        by_cases h2 : p.role = some "anon" ∨ p.iss = some "supabase"
        · rw [if_pos h2]
          exact hx
        · rw [if_neg h2]
          exact hx
  · simp only [jwtStep]
    rw [if_neg hp]
    exact hx

theorem foldl_jwtStep_acc_mono (dec : String → Option Payload) (url : String) :
    ∀ (l : List String) (st : List ApiKeyFinding × ApiKeyFinding × Option String)
      (x : ApiKeyFinding), x ∈ st.1 → x ∈ (l.foldl (jwtStep dec url) st).1 := by
  intro l
  induction l with
  | nil => intro st x hx; exact hx
  | cons k l' ih =>
    intro st x hx
    rw [List.foldl_cons]
    exact ih _ x (jwtStep_acc_mono dec url st k x hx)

/-- Processing a service-role match pushes its distinct critical finding. -/
theorem jwtStep_service (dec : String → Option Payload) (url : String)
    (st : List ApiKeyFinding × ApiKeyFinding × Option String) (k : String)
    (hk : serviceDecode dec k = true) :
    serviceRoleFinding url k ∈ (jwtStep dec url st k).1 := by
  rcases st with ⟨acc, f, d⟩
  by_cases hp : (jsSplit k ".").length ≥ 2
  · rcases hdec : dec ((jsSplit k ".").getD 1 "") with _ | p
    · exfalso
      simp only [serviceDecode] at hk
      rw [if_pos hp, hdec] at hk
      simp at hk
    · have h1 : p.role = some "service_role" := by
        simp only [serviceDecode, hdec] at hk
        rw [if_pos hp] at hk
        exact of_decide_eq_true hk
      simp only [jwtStep, hdec]
      rw [if_pos hp, if_pos h1]
      exact List.mem_append_right _ (List.mem_singleton.mpr rfl)
  · exfalso
    simp only [serviceDecode] at hk
    rw [if_neg hp] at hk
    simp at hk

theorem foldl_jwtStep_service (dec : String → Option Payload) (url : String) :
    ∀ (l : List String) (st : List ApiKeyFinding × ApiKeyFinding × Option String)
      (k : String), k ∈ l → serviceDecode dec k = true →
      serviceRoleFinding url k ∈ (l.foldl (jwtStep dec url) st).1 := by
  intro l
  induction l with
  | nil => intro st k hk; exact absurd hk (List.not_mem_nil k)
  | cons m l' ih =>
    intro st k hk hsvc
    rw [List.foldl_cons]
    rcases List.mem_cons.mp hk with rfl | hk'
    · exact foldl_jwtStep_acc_mono dec url l' _ _ (jwtStep_service dec url st k hsvc)
    · exact ih _ k hk' hsvc

/-- Once an anon credential is recorded, later matches never clear it
(they can only replace it with another anon credential). -/
theorem jwtStep_keeps_some (dec : String → Option Payload) (url : String)
    (st : List ApiKeyFinding × ApiKeyFinding × Option String) (k : String)
    (hu : st.2.1.supabaseUrl = some url) (hk : st.2.1.supabaseKey.isSome = true)
    (hd : st.2.2.isSome = true) :
    (jwtStep dec url st k).2.1.supabaseUrl = some url ∧
      (jwtStep dec url st k).2.1.supabaseKey.isSome = true ∧
      (jwtStep dec url st k).2.2.isSome = true := by
  rcases st with ⟨acc, f, d⟩
  by_cases hp : (jsSplit k ".").length ≥ 2
  · rcases hdec : dec ((jsSplit k ".").getD 1 "") with _ | p
    · have hdn : ¬ d.isNone = true := by
        rcases d with _ | v
        · simp at hd
        · simp
      simp only [jwtStep, hdec]
      rw [if_pos hp, if_neg hdn]
      exact ⟨hu, hk, hd⟩
    · simp only [jwtStep, hdec]
      rw [if_pos hp]
      by_cases h1 : p.role = some "service_role"
      · rw [if_pos h1]
        exact ⟨hu, hk, hd⟩
      · rw [if_neg h1]
        by_cases h2 : p.role = some "anon" ∨ p.iss = some "supabase"
        · rw [if_pos h2]
          exact ⟨rfl, rfl, rfl⟩
        · rw [if_neg h2]
          exact ⟨hu, hk, hd⟩
  · simp only [jwtStep]
    rw [if_neg hp]
    exact ⟨hu, hk, hd⟩

theorem foldl_jwtStep_keeps_some (dec : String → Option Payload) (url : String) :
    ∀ (l : List String) (st : List ApiKeyFinding × ApiKeyFinding × Option String),
      st.2.1.supabaseUrl = some url → st.2.1.supabaseKey.isSome = true →
      st.2.2.isSome = true →
      (l.foldl (jwtStep dec url) st).2.1.supabaseUrl = some url ∧
        (l.foldl (jwtStep dec url) st).2.1.supabaseKey.isSome = true ∧
        (l.foldl (jwtStep dec url) st).2.2.isSome = true := by
  intro l
  induction l with
  | nil => intro st hu hk hd; exact ⟨hu, hk, hd⟩
  | cons m l' ih =>
    intro st hu hk hd
    rw [List.foldl_cons]
    obtain ⟨h1, h2, h3⟩ := jwtStep_keeps_some dec url st m hu hk hd
    exact ih _ h1 h2 h3

/-- Processing an anon-decoding match records it as the credential. -/
theorem jwtStep_anon (dec : String → Option Payload) (url : String)
    (st : List ApiKeyFinding × ApiKeyFinding × Option String) (k : String)
    (hk : anonDecode dec k = true) :
    (jwtStep dec url st k).2.1.supabaseUrl = some url ∧
      (jwtStep dec url st k).2.1.supabaseKey = some k ∧
      (jwtStep dec url st k).2.2 = some k := by
  rcases st with ⟨acc, f, d⟩
  by_cases hp : (jsSplit k ".").length ≥ 2
  · rcases hdec : dec ((jsSplit k ".").getD 1 "") with _ | p
    · exfalso
      simp only [anonDecode] at hk
      rw [if_pos hp, hdec] at hk
      simp at hk
    · simp only [anonDecode] at hk
      rw [if_pos hp, hdec] at hk
      have hk2 : (if p.role = some "service_role" then false
          else if p.role = some "anon" ∨ p.iss = some "supabase" then true
          else false) = true := hk
      by_cases h1 : p.role = some "service_role"
      · exfalso
        rw [if_pos h1] at hk2
        simp at hk2
      · rw [if_neg h1] at hk2
        by_cases h2 : p.role = some "anon" ∨ p.iss = some "supabase"
        · simp only [jwtStep, hdec]
          rw [if_pos hp, if_neg h1, if_pos h2]
          exact ⟨rfl, rfl, rfl⟩
        · exfalso
          rw [if_neg h2] at hk2
          simp at hk2
  · exfalso
    simp only [anonDecode] at hk
    rw [if_neg hp] at hk
    simp at hk

/-- A match that does not decode to an anon claim leaves an already-recorded
credential untouched. -/
theorem jwtStep_no_anon (dec : String → Option Payload) (url : String)
    (st : List ApiKeyFinding × ApiKeyFinding × Option String) (k k0 : String)
    (hk : anonDecode dec k = false)
    (hu : st.2.1.supabaseUrl = some url) (hkey : st.2.1.supabaseKey = some k0)
    (hd : st.2.2 = some k0) :
    (jwtStep dec url st k).2.1.supabaseUrl = some url ∧
      (jwtStep dec url st k).2.1.supabaseKey = some k0 ∧
      (jwtStep dec url st k).2.2 = some k0 := by
  rcases st with ⟨acc, f, d⟩
  by_cases hp : (jsSplit k ".").length ≥ 2
  · rcases hdec : dec ((jsSplit k ".").getD 1 "") with _ | p
    · have hdn : ¬ d.isNone = true := by
        simp only at hd
        rw [hd]
        simp
      simp only [jwtStep, hdec]
      rw [if_pos hp, if_neg hdn]
      exact ⟨hu, hkey, hd⟩
    · simp only [anonDecode] at hk
      rw [if_pos hp, hdec] at hk
      have hk2 : (if p.role = some "service_role" then false
          else if p.role = some "anon" ∨ p.iss = some "supabase" then true
          else false) = false := hk
      simp only [jwtStep, hdec]
      rw [if_pos hp]
      by_cases h1 : p.role = some "service_role"
      · rw [if_pos h1]
        exact ⟨hu, hkey, hd⟩
      · rw [if_neg h1] at hk2
        rw [if_neg h1]
        by_cases h2 : p.role = some "anon" ∨ p.iss = some "supabase"
        · exfalso
          rw [if_pos h2] at hk2
          simp at hk2
        · rw [if_neg h2]
          exact ⟨hu, hkey, hd⟩
  · simp only [jwtStep]
    rw [if_neg hp]
    exact ⟨hu, hkey, hd⟩

theorem foldl_jwtStep_no_anon (dec : String → Option Payload) (url : String) :
    ∀ (l : List String) (st : List ApiKeyFinding × ApiKeyFinding × Option String)
      (k0 : String), (∀ k ∈ l, anonDecode dec k = false) →
      st.2.1.supabaseUrl = some url → st.2.1.supabaseKey = some k0 →
      st.2.2 = some k0 →
      (l.foldl (jwtStep dec url) st).2.1.supabaseUrl = some url ∧
        (l.foldl (jwtStep dec url) st).2.1.supabaseKey = some k0 ∧
        (l.foldl (jwtStep dec url) st).2.2 = some k0 := by
  intro l
  induction l with
  | nil => intro st k0 _ hu hkey hd; exact ⟨hu, hkey, hd⟩
  | cons m l' ih =>
    intro st k0 hall hu hkey hd
    rw [List.foldl_cons]
    obtain ⟨h1, h2, h3⟩ := jwtStep_no_anon dec url st m k0
      (hall m (List.mem_cons_self m l')) hu hkey hd
    exact ih _ k0 (fun k hk => hall k (List.mem_cons_of_mem m hk)) h1 h2 h3

/-- An anon match anywhere in the list leaves the final state with a
recorded credential. -/
theorem foldl_jwtStep_anon (dec : String → Option Payload) (url : String) :
    ∀ (l : List String) (st : List ApiKeyFinding × ApiKeyFinding × Option String)
      (k : String), k ∈ l → anonDecode dec k = true →
      (l.foldl (jwtStep dec url) st).2.1.supabaseUrl = some url ∧
        (l.foldl (jwtStep dec url) st).2.1.supabaseKey.isSome = true ∧
        (l.foldl (jwtStep dec url) st).2.2.isSome = true := by
  intro l
  induction l with
  | nil => intro st k hk; exact absurd hk (List.not_mem_nil k)
  | cons m l' ih =>
    intro st k hk hanon
    rw [List.foldl_cons]
    rcases List.mem_cons.mp hk with rfl | hk'
    · obtain ⟨h1, h2, h3⟩ := jwtStep_anon dec url st k hanon
      exact foldl_jwtStep_keeps_some dec url l' _ h1 (by rw [h2]; rfl) (by rw [h3]; rfl)
    · exact ih _ k hk' hanon

/-- C8: classification of JWT-shaped matches found next to a backend URL
(`processSupabaseJwtPattern`, modelling lines 327-371; the decode oracle
`dec` receives only the payload segment `parts[1]`, never the signature).
(1) A match whose payload decodes to a `service_role` claim contributes the
distinct, maximally critical `Supabase Service Role Key` finding, recorded
separately from (in addition to) the base `Supabase JWT` finding, whose type
differs.  (2) A match whose payload decodes to an anon-equivalent claim
leaves the base finding carrying the backend URL and a usable credential —
exactly the fields the orchestrator's `find` uses to launch the
Data-Exposure probe.  (3) If the first match's payload fails to decode and
no later match decodes to an anon claim, the first match itself is recorded
as the usable credential; a decode failure never aborts the scan (the
result is total for every oracle `dec`). -/
theorem C8_jwt_classification (dec : String → Option Payload) (url : String)
    (ms : List String) :
    (∀ k ∈ ms, serviceDecode dec k = true →
      serviceRoleFinding url k ∈ (processSupabaseJwtPattern dec url ms).1 ∧
      (∃ f ∈ (processSupabaseJwtPattern dec url ms).1,
        f.type = "Supabase JWT" ∧ f ≠ serviceRoleFinding url k)) ∧
    (∀ k ∈ ms, anonDecode dec k = true →
      ∃ f, ((processSupabaseJwtPattern dec url ms).1).getLast? = some f ∧
        f.type = "Supabase JWT" ∧ f.supabaseUrl = some url ∧
        f.supabaseKey.isSome = true ∧
        (processSupabaseJwtPattern dec url ms).2.isSome = true) ∧
    (∀ k0 rest, ms = k0 :: rest →
      (jsSplit k0 ".").length ≥ 2 →
      dec ((jsSplit k0 ".").getD 1 "") = none →
      (∀ k ∈ rest, anonDecode dec k = false) →
      ∃ f, ((processSupabaseJwtPattern dec url ms).1).getLast? = some f ∧
        f.type = "Supabase JWT" ∧ f.supabaseUrl = some url ∧
        f.supabaseKey = some k0 ∧
        (processSupabaseJwtPattern dec url ms).2 = some k0) := by
  refine ⟨?_, ?_, ?_⟩
  · intro k hk hsvc
    cases ms with
    | nil => exact absurd hk (List.not_mem_nil k)
    | cons m0 rest =>
      rcases hst : (m0 :: rest).foldl (jwtStep dec url)
          ([], { type := "Supabase JWT", preview := jsTake m0 8 ++ "..."
                 severity := "critical" }, none) with ⟨svc, finding, detected⟩
      have hres : processSupabaseJwtPattern dec url (m0 :: rest) =
          (svc ++ [finding], detected) := by
        simp only [processSupabaseJwtPattern]
        rw [hst]
      rw [hres]
      have hmem := foldl_jwtStep_service dec url (m0 :: rest)
        ([], { type := "Supabase JWT", preview := jsTake m0 8 ++ "..."
               severity := "critical" }, none) k hk hsvc
      rw [hst] at hmem
      have htype := foldl_jwtStep_type dec url (m0 :: rest)
        ([], { type := "Supabase JWT", preview := jsTake m0 8 ++ "..."
               severity := "critical" }, none)
      rw [hst] at htype
      refine ⟨List.mem_append_left _ hmem,
        finding, List.mem_append_right _ (List.mem_singleton.mpr rfl), htype, ?_⟩
      intro heq
      have htype2 : finding.type = "Supabase JWT" := htype
      rw [heq] at htype2
      exact absurd htype2 (by simp [serviceRoleFinding])
  · intro k hk hanon
    cases ms with
    | nil => exact absurd hk (List.not_mem_nil k)
    | cons m0 rest =>
      rcases hst : (m0 :: rest).foldl (jwtStep dec url)
          ([], { type := "Supabase JWT", preview := jsTake m0 8 ++ "..."
                 severity := "critical" }, none) with ⟨svc, finding, detected⟩
      have hres : processSupabaseJwtPattern dec url (m0 :: rest) =
          (svc ++ [finding], detected) := by
        simp only [processSupabaseJwtPattern]
        rw [hst]
      rw [hres]
      have hall := foldl_jwtStep_anon dec url (m0 :: rest)
        ([], { type := "Supabase JWT", preview := jsTake m0 8 ++ "..."
               severity := "critical" }, none) k hk hanon
      rw [hst] at hall
      obtain ⟨h1, h2, h3⟩ := hall
      have htype := foldl_jwtStep_type dec url (m0 :: rest)
        ([], { type := "Supabase JWT", preview := jsTake m0 8 ++ "..."
               severity := "critical" }, none)
      rw [hst] at htype
      exact ⟨finding, by rw [List.getLast?_concat], htype, h1, h2, h3⟩
  · intro k0 rest hms hp hdec hrest
    subst hms
    have hstep : jwtStep dec url
        ([], { type := "Supabase JWT", preview := jsTake k0 8 ++ "..."
               severity := "critical" }, none) k0 =
        ([], { type := "Supabase JWT", preview := jsTake k0 8 ++ "..."
               severity := "critical", supabaseUrl := some url
               supabaseKey := some k0 }, some k0) := by
      simp only [jwtStep, hdec]
      rw [if_pos hp]
      rfl
    rcases hst : (k0 :: rest).foldl (jwtStep dec url)
        ([], { type := "Supabase JWT", preview := jsTake k0 8 ++ "..."
               severity := "critical" }, none) with ⟨svc, finding, detected⟩
    have hres : processSupabaseJwtPattern dec url (k0 :: rest) =
        (svc ++ [finding], detected) := by
      simp only [processSupabaseJwtPattern]
      rw [hst]
    have hst' : rest.foldl (jwtStep dec url)
        ([], { type := "Supabase JWT", preview := jsTake k0 8 ++ "..."
               severity := "critical", supabaseUrl := some url
               supabaseKey := some k0 }, some k0) = (svc, finding, detected) := by
      rw [List.foldl_cons, hstep] at hst
      exact hst
    have h := foldl_jwtStep_no_anon dec url rest
      ([], { type := "Supabase JWT", preview := jsTake k0 8 ++ "..."
             severity := "critical", supabaseUrl := some url
             supabaseKey := some k0 }, some k0) k0 hrest rfl rfl rfl
    rw [hst'] at h
    obtain ⟨h1, h2, h3⟩ := h
    have htype := foldl_jwtStep_type dec url (k0 :: rest)
      ([], { type := "Supabase JWT", preview := jsTake k0 8 ++ "..."
             severity := "critical" }, none)
    rw [hst] at htype
    rw [hres]
    exact ⟨finding, by rw [List.getLast?_concat], htype, h1, h2, h3⟩

/-- A concrete payload-decode oracle for the C8 witness. -/
def jwtDecOracle : String → Option Payload := fun p =>
  if p = "svcpayload" then some { role := some "service_role" }
  else if p = "anonpayload" then some { role := some "anon" }
  else none

/-- C8, witness: with a concrete oracle, a service-role token yields the
distinct critical finding, and a token whose payload fails to decode is
itself recorded as the usable credential. -/
theorem C8_witness :
    serviceRoleFinding "https://x.supabase.co" "aaa.svcpayload.sig" ∈
      (processSupabaseJwtPattern jwtDecOracle "https://x.supabase.co"
        ["aaa.svcpayload.sig"]).1 ∧
    (processSupabaseJwtPattern jwtDecOracle "https://x.supabase.co"
        ["ccc.badpayload.sig"]).2 = some "ccc.badpayload.sig" := by
  constructor
  · exact ((C8_jwt_classification jwtDecOracle "https://x.supabase.co"
      ["aaa.svcpayload.sig"]).1 "aaa.svcpayload.sig" (by decide) (by decide)).1
  · obtain ⟨f, hlast, htype, hurl, hkey, hdet⟩ :=
      (C8_jwt_classification jwtDecOracle "https://x.supabase.co"
        ["ccc.badpayload.sig"]).2.2 "ccc.badpayload.sig" [] rfl (by decide)
        (by decide) (by simp)
    exact hdet

/-! ## Claim C1 — sensitive-path validation -/

/-- The acceptance condition of one sensitive path: the path-specific
validator when the catalog has one, the generic non-HTML check otherwise. -/
def validatorAccepts (jp : String → Option JsonView) (path body ct : String) :
    Bool :=
  match PATH_VALIDATORS jp path with
  | some v => v body ct
  | none => !containsSub ct "text/html"

/-- C1: for every path in the fixed sensitive-path catalog the prober issues
a `GET` request (never `HEAD`), and it reports an exposure finding **only
when** the response arrived with status exactly 200, the response does not
match the single-page-app fallback heuristic (which rejects an HTML body
containing a root-mount marker), and the path-specific content validator
(or, for paths without one, the generic non-HTML content-type check)
accepts the body.  In particular a 200 status alone never produces a
finding. -/
theorem C1_sensitive_paths (origin : String) :
    (∀ p ∈ SENSITIVE_PATHS, (sensitivePathRequest origin p).method = "GET") ∧
    (∀ (jp : String → Option JsonView) (p : String), p ∈ SENSITIVE_PATHS →
      ∀ (r : Option Resp) (f : PathFinding), probeSensitivePath jp p r = some f →
      ∃ res, r = some res ∧ res.status = 200 ∧
        isSpaFallback res.body res.contentType = false ∧
        validatorAccepts jp p res.body res.contentType = true) := by
  constructor
  · intro p _
    rfl
  · intro jp p _ r f h
    cases r with
    | none => exact absurd h (by simp [probeSensitivePath])
    | some res =>
      refine ⟨res, rfl, ?_⟩
      simp only [probeSensitivePath] at h
      by_cases hs : res.status ≠ 200
      · rw [if_pos hs] at h
        exact absurd h (by simp)
      · rw [if_neg hs] at h
        push_neg at hs
        refine ⟨hs, ?_⟩
        by_cases hspa : isSpaFallback res.body res.contentType = true
        · rw [if_pos hspa] at h
          exact absurd h (by simp)
        · have hspa2 : isSpaFallback res.body res.contentType = false := by
            simpa using hspa
          rw [if_neg hspa] at h
          refine ⟨hspa2, ?_⟩
          unfold validatorAccepts
          rcases hv : PATH_VALIDATORS jp p with _ | v <;> rw [hv] at h
          · have h2 : (if containsSub res.contentType "text/html" = true then none
                else some { path := p, status := res.status
                            preview := pathPreview jp p res.body }) = some f := h
            by_cases hct : containsSub res.contentType "text/html" = true
            · rw [if_pos hct] at h2
              exact absurd h2 (by simp)
            · simpa using hct
          · have h2 : (if (!v res.body res.contentType) = true then none
                else some { path := p, status := res.status
                            preview := pathPreview jp p res.body }) = some f := h
            by_cases hvb : v res.body res.contentType = true
            · exact hvb
            · exfalso
              have hnb : (!v res.body res.contentType) = true := by
                rw [Bool.not_eq_true] at hvb
                rw [hvb]
                rfl
              rw [if_pos hnb] at h2
              exact absurd h2 (by simp)

/-- C1, witness: a plain-text `/.env` body with a `KEY=value` line yields a
finding through the theorem's acceptance conditions, while a 200 SPA
fallback page at the same path yields none. -/
theorem C1_witness :
    (sensitivePathRequest "https://example.com" "/.env").method = "GET" ∧
      ({ status := 200, headers := [("content-type", "text/plain")]
         body := "API_KEY=abc123" } : Resp).status = 200 ∧
      probeSensitivePath (fun _ => none) "/.env"
        (some { status := 200, headers := [("content-type", "text/html")]
                body := "<div id=\x22root\x22></div>" }) = none := by
  refine ⟨(C1_sensitive_paths "https://example.com").1 "/.env" (by decide), ?_,
    by decide⟩
  obtain ⟨res, hres, hstatus, _, _⟩ :=
    (C1_sensitive_paths "https://example.com").2 (fun _ => none) "/.env" (by decide)
      (some { status := 200, headers := [("content-type", "text/plain")]
              body := "API_KEY=abc123" })
      { path := "/.env", status := 200, preview := some "Contains: API_KEY=..." }
      (by decide)
  cases hres
  exact hstatus

/-! ## Claim C7 — the discovered URL set -/

/-- C7, counterexample: the output is **hostname**-filtered, not
origin-filtered.  A sitemap `<loc>` carrying an `http://` URL for the same
host survives the filter of an `https://` target, so the discovered set
contains a URL whose origin differs from the target's origin. -/
theorem C7_counterexample :
    "http://example.com/a" ∈ discoverUrls
        { sitemap := some { status := 200, headers := []
                            body := "<loc>http://example.com/a</loc>" }
          robots := none, homepage := none, bundles := fun _ => none }
        "https://example.com" ∧
      originOf "http://example.com/a" = some "http://example.com" ∧
      getOrigin "https://example.com" = "https://example.com" ∧
      originOf "http://example.com/a" ≠ some "https://example.com" := by
  refine ⟨by decide, by decide, by decide, by decide⟩

theorem addUrl_nodup {urls : List String} (u : String) (h : urls.Nodup) :
    (addUrl urls u).Nodup := by
  unfold addUrl
  by_cases hc : urls.contains u = true
  · rw [if_pos hc]
    exact h
  · rw [if_neg hc]
    rw [List.nodup_append]
    refine ⟨h, List.nodup_singleton u, ?_⟩
    intro a ha hmem
    rcases List.mem_singleton.mp hmem
    exact hc (List.elem_iff.mpr ha)

theorem addUrls_nodup {urls : List String} (us : List String) (h : urls.Nodup) :
    (addUrls urls us).Nodup := by
  induction us generalizing urls with
  | nil => exact h
  | cons u us2 ih => exact ih (addUrl_nodup u h)

/-- The accumulated URL set of one discovery run has no duplicates (it
models a JS `Set<string>`). -/
theorem collectedUrls_nodup (env : DiscoverEnv) (origin : String) :
    (collectedUrls env origin).Nodup := by
  unfold collectedUrls
  rcases homepageBodyOf env.homepage with _ | b
  · exact addUrls_nodup _ (addUrls_nodup _ (addUrls_nodup _ List.nodup_nil))
  · exact addUrls_nodup _ (addUrls_nodup _ (addUrls_nodup _
      (addUrls_nodup _ List.nodup_nil)))

/-- Everything the output stage keeps parses to the target's hostname. -/
theorem finalizeUrls_props (origin : String) (urls : List String)
    (h : urls.Nodup) :
    (finalizeUrls origin urls).Nodup ∧
    List.Pairwise (fun a b : String => a ≤ b) (finalizeUrls origin urls) ∧
    (finalizeUrls origin urls).length ≤ 60 ∧
    (∀ u ∈ finalizeUrls origin urls,
      (hostnameOf u).isSome = true ∧ hostnameOf u = hostnameOf origin) := by
  unfold finalizeUrls
  set p : String → Bool := fun u =>
    match hostnameOf u, hostnameOf origin with
    | some a, some b => a == b
    | _, _ => false with hp
  have hperm := List.perm_insertionSort (fun a b : String => a ≤ b)
    (urls.filter p)
  refine ⟨?_, ?_, List.length_take_le 60 _, ?_⟩
  · exact ((List.take_sublist 60 _).nodup
      (hperm.nodup_iff.mpr (h.filter p)))
  · exact List.Pairwise.sublist (List.take_sublist 60 _)
      (List.sorted_insertionSort (fun a b : String => a ≤ b) (urls.filter p))
  · intro u hu
    have hmem : u ∈ urls.filter p := hperm.mem_iff.mp (List.mem_of_mem_take hu)
    have hpu : p u = true := (List.mem_filter.mp hmem).2
    have hpu2 : (match hostnameOf u, hostnameOf origin with
        | some a, some b => a == b
        | _, _ => false) = true := hpu
    rcases h1 : hostnameOf u with _ | a <;> rw [h1] at hpu2
    · exact absurd (show (false : Bool) = true from hpu2) (by simp)
    · rcases h2 : hostnameOf origin with _ | b <;> rw [h2] at hpu2
      · exact absurd (show (false : Bool) = true from hpu2) (by simp)
      · have hab : a = b := eq_of_beq (show (a == b) = true from hpu2)
        exact ⟨rfl, by rw [hab]⟩

/-- C7 (amended): the discovered URL set produced by a scan is
deduplicated, sorted, and capped at 60 entries, and every member's
**hostname** equals the hostname of the target's origin.  The filter
compares hostnames — not full origins — so a same-host URL with a
different scheme or port (hence a different origin) is retained; the
counterexample exhibits this. -/
theorem C7_discovered_url_set (env : DiscoverEnv) (baseUrl : String) :
    (discoverUrls env baseUrl).Nodup ∧
    List.Pairwise (fun a b : String => a ≤ b) (discoverUrls env baseUrl) ∧
    (discoverUrls env baseUrl).length ≤ 60 ∧
    (∀ u ∈ discoverUrls env baseUrl,
      (hostnameOf u).isSome = true ∧
      hostnameOf u = hostnameOf (getOrigin baseUrl)) := by
  unfold discoverUrls
  exact finalizeUrls_props (getOrigin baseUrl) _
    (collectedUrls_nodup env (getOrigin baseUrl))

/-- C7, witness: the sitemap counterexample environment also instantiates
the amended theorem's hostname property at a concrete member. -/
theorem C7_witness :
    (hostnameOf "http://example.com/a").isSome = true ∧
      hostnameOf "http://example.com/a" =
        hostnameOf (getOrigin "https://example.com") :=
  (C7_discovered_url_set
    { sitemap := some { status := 200, headers := []
                        body := "<loc>http://example.com/a</loc>" }
      robots := none, homepage := none, bundles := fun _ => none }
    "https://example.com").2.2.2 "http://example.com/a" (by decide)


end VibeScan
